import Mathlib

/-!
# Verification of the Solr operator resource-derivation engine

A shallow embedding of `controllers/util/solr_util.go` of the solr-operator
repository, together with proofs about the embedded functions.

Conventions of the embedding:
* Go byte strings (`[]byte`) become `List Nat`, each element intended `< 256`.
* Go maps that the code only reads by key become Lean functions; Go maps that
  the code iterates become association lists, whose list order stands for the
  (arbitrary) iteration order of the Go map.
* `nil`-able Go pointers become `Option`.
* Functions of the repository that live outside `solr_util.go` (label merging,
  URL derivation, connection-string dissection, probe customization) are
  modelled from the specification; their doc comments say so explicitly.
* Randomness (`math/rand`, `crypto/rand`) is passed in explicitly: each random
  draw the Go code makes is an argument of the Lean function.
* `crypto/sha256` is an external primitive; it is abstracted as a function
  argument `H : List Nat → List Nat`.
-/

namespace SolrOperator

/-! ## Label and annotation maps -/

/-- Kubernetes label/annotation maps, modelled as partial functions from keys
to values (`none` = key absent; Go's `nil` map and empty map coincide with the
everywhere-`none` map). -/
def LabelMap : Type := String → Option String

def LabelMap.empty : LabelMap := fun _ => none

/-- Go's `m[k] = v` on a label map. -/
def LabelMap.set (m : LabelMap) (k v : String) : LabelMap :=
  fun q => if q = k then some v else m q

def LabelMap.ofList (l : List (String × String)) : LabelMap :=
  fun q => l.lookup q

/-- Modelled from the spec: `MergeLabelsOrAnnotations` (defined outside this
file in the repository) merges two label/annotation maps.  Per §4.1/§4.2 of the
spec the base layer takes the lowest precedence ("internal labels taking lowest
precedence", "the object-kind-specific override layer merges last and wins on
key conflicts"), and no key of either layer is dropped. -/
def MergeLabelsOrAnnotations (base additional : LabelMap) : LabelMap :=
  fun k => match additional k with
    | some v => some v
    | none => base k

/-- The fixed technology-label value `solr.SolrTechnologyLabel`. -/
def SolrTechnologyLabel : String := "solr-cloud"

/-- The key of the per-instance identity label. -/
def SolrInstanceLabelKey : String := "solr-cloud"

/-- Modelled from the spec: `SolrCloud.SharedLabels` (defined outside this
file).  Per §3, every generated object carries a fixed technology label plus an
identity label tying it to the cluster instance; per §4.1 these internal labels
are the base layer of every label map. -/
def SharedLabels (instanceName : String) : LabelMap :=
  LabelMap.ofList [("technology", SolrTechnologyLabel), (SolrInstanceLabelKey, instanceName)]

/-- Modelled from the spec: `SolrCloud.SharedLabelsWith` merges the given map
over the shared internal base labels. -/
def SharedLabelsWith (instanceName : String) (m : LabelMap) : LabelMap :=
  MergeLabelsOrAnnotations (SharedLabels instanceName) m

/-! ## Base64 (Go `encoding/base64` `StdEncoding`) -/

def base64AlphabetChars : List Char :=
  ['A','B','C','D','E','F','G','H','I','J','K','L','M',
   'N','O','P','Q','R','S','T','U','V','W','X','Y','Z',
   'a','b','c','d','e','f','g','h','i','j','k','l','m',
   'n','o','p','q','r','s','t','u','v','w','x','y','z',
   '0','1','2','3','4','5','6','7','8','9','+','/']

def b64Char (n : Nat) : Char := base64AlphabetChars.getD n 'A'

def b64Index (c : Char) : Nat := base64AlphabetChars.indexOf c

/-- RFC 4648 standard base64 of a byte list, 3 bytes → 4 characters, padded
with `'='`, as performed by Go's `base64.StdEncoding.EncodeToString`. -/
def base64EncodeChunks : List Nat → List Char
  | b0 :: b1 :: b2 :: rest =>
      let n := b0 * 65536 + b1 * 256 + b2
      b64Char (n / 262144) :: b64Char (n / 4096 % 64) :: b64Char (n / 64 % 64) ::
        b64Char (n % 64) :: base64EncodeChunks rest
  | [b0, b1] =>
      let n := b0 * 65536 + b1 * 256
      [b64Char (n / 262144), b64Char (n / 4096 % 64), b64Char (n / 64 % 64), '=']
  | [b0] =>
      let n := b0 * 65536
      [b64Char (n / 262144), b64Char (n / 4096 % 64), '=', '=']
  | [] => []

def base64Encode (bytes : List Nat) : String := String.mk (base64EncodeChunks bytes)

/-- Decoder counterpart (used only for stating the verification property
of the credential string): 6-bit digits back to bytes. -/
def base64DecodeDigits : List Nat → List Nat
  | d0 :: d1 :: d2 :: d3 :: rest =>
      (d0 * 4 + d1 / 16) :: (d1 % 16 * 16 + d2 / 4) :: (d2 % 4 * 64 + d3) ::
        base64DecodeDigits rest
  | [d0, d1, d2] => [d0 * 4 + d1 / 16, d1 % 16 * 16 + d2 / 4]
  | [d0, d1] => [d0 * 4 + d1 / 16]
  | _ => []

def base64Decode (s : String) : List Nat :=
  base64DecodeDigits ((s.toList.filter (fun c => c != '=')).map b64Index)

theorem b64Index_b64Char : ∀ n < 64, b64Index (b64Char n) = n := by decide

theorem b64Char_ne_pad : ∀ n < 64, (b64Char n != '=') = true := by decide

/-- One non-pad character of an encoded chunk survives the pad filter and maps
back to its digit. -/
theorem b64_decodeStep (d : Nat) (hd : d < 64) (l : List Char) :
    ((b64Char d :: l).filter (fun c => c != '=')).map b64Index
      = d :: ((l.filter (fun c => c != '=')).map b64Index) := by
  simp [List.filter_cons, b64Char_ne_pad d hd, b64Index_b64Char d hd]

/-- Pad characters are dropped by the filter. -/
theorem b64_padStep (l : List Char) :
    ('=' :: l).filter (fun c => c != '=') = l.filter (fun c => c != '=') := by
  simp [List.filter_cons]

theorem base64_roundtrip (bytes : List Nat) (h : ∀ b ∈ bytes, b < 256) :
    base64Decode (base64Encode bytes) = bytes := by
  unfold base64Decode base64Encode
  show base64DecodeDigits (((base64EncodeChunks bytes).filter _).map b64Index) = bytes
  induction bytes using base64EncodeChunks.induct with
  | case1 b0 b1 b2 rest ih =>
    have hb0 : b0 < 256 := h b0 (by simp)
    have hb1 : b1 < 256 := h b1 (by simp)
    have hb2 : b2 < 256 := h b2 (by simp)
    have h0 : (b0 * 65536 + b1 * 256 + b2) / 262144 < 64 := by omega
    have h1 : (b0 * 65536 + b1 * 256 + b2) / 4096 % 64 < 64 := by omega
    have h2 : (b0 * 65536 + b1 * 256 + b2) / 64 % 64 < 64 := by omega
    have h3 : (b0 * 65536 + b1 * 256 + b2) % 64 < 64 := by omega
    rw [base64EncodeChunks]
    rw [b64_decodeStep _ h0, b64_decodeStep _ h1, b64_decodeStep _ h2, b64_decodeStep _ h3,
      base64DecodeDigits]
    refine congrArg₂ _ (by omega) (congrArg₂ _ (by omega) (congrArg₂ _ (by omega) ?_))
    exact ih (fun b hb => h b (by simp [hb]))
  | case2 b0 b1 =>
    have hb0 : b0 < 256 := h b0 (by simp)
    have hb1 : b1 < 256 := h b1 (by simp)
    have h0 : (b0 * 65536 + b1 * 256) / 262144 < 64 := by omega
    have h1 : (b0 * 65536 + b1 * 256) / 4096 % 64 < 64 := by omega
    have h2 : (b0 * 65536 + b1 * 256) / 64 % 64 < 64 := by omega
    rw [base64EncodeChunks]
    rw [b64_decodeStep _ h0, b64_decodeStep _ h1, b64_decodeStep _ h2, b64_padStep]
    simp only [List.filter_nil, List.map_nil]
    rw [base64DecodeDigits]
    refine congrArg₂ _ (by omega) (congrArg₂ _ (by omega) rfl)
  | case3 b0 =>
    have hb0 : b0 < 256 := h b0 (by simp)
    have h0 : b0 * 65536 / 262144 < 64 := by omega
    have h1 : b0 * 65536 / 4096 % 64 < 64 := by omega
    rw [base64EncodeChunks]
    rw [b64_decodeStep _ h0, b64_decodeStep _ h1, b64_padStep, b64_padStep]
    simp only [List.filter_nil, List.map_nil]
    rw [base64DecodeDigits]
    refine congrArg₂ _ (by omega) rfl
  | case4 =>
    rw [base64EncodeChunks]
    simp [base64DecodeDigits]

/-! ## Sorting helpers (Go `sort.Strings`) -/

/-- The comparison used by `sort.Strings`: lexicographic `≤` on strings. -/
def strLe (a b : String) : Bool := decide (a ≤ b)

theorem strLe_trans : ∀ a b c : String, strLe a b = true → strLe b c = true → strLe a c = true := by
  intro a b c hab hbc
  simp only [strLe, decide_eq_true_eq] at *
  exact le_trans hab hbc

theorem strLe_total : ∀ a b : String, (strLe a b || strLe b a) = true := by
  intro a b
  simp only [strLe, Bool.or_eq_true, decide_eq_true_eq]
  exact le_total a b

/-- Sorting by `strLe` only depends on the multiset of elements: permuted
inputs (such as two iteration orders of the same Go map) sort identically. -/
theorem mergeSort_strLe_eq_of_perm {l₁ l₂ : List String} (h : l₁.Perm l₂) :
    l₁.mergeSort strLe = l₂.mergeSort strLe := by
  apply List.eq_of_perm_of_sorted (r := fun a b : String => a ≤ b)
  · exact ((l₁.mergeSort_perm strLe).trans h).trans (l₂.mergeSort_perm strLe).symm
  · exact (List.sorted_mergeSort strLe_trans strLe_total l₁).imp fun hab => by
      simpa [strLe] using hab
  · exact (List.sorted_mergeSort strLe_trans strLe_total l₂).imp fun hab => by
      simpa [strLe] using hab

theorem sorted_mergeSort_strLe (l : List String) :
    List.Sorted (fun a b : String => a ≤ b) (l.mergeSort strLe) :=
  (List.sorted_mergeSort strLe_trans strLe_total l).imp fun hab => by
    simpa [strLe] using hab

/-- Association-list lookup is stable under permutation when keys are
duplicate-free: the model of reading a Go map whose contents were collected in
an arbitrary iteration order. -/
theorem lookup_eq_of_perm {β : Type} {l₁ l₂ : List (String × β)} (hp : l₁.Perm l₂)
    (hn : (l₁.map Prod.fst).Nodup) (k : String) : l₁.lookup k = l₂.lookup k := by
  induction hp with
  | nil => rfl
  | cons x hp ih =>
    obtain ⟨a, b⟩ := x
    simp only [List.lookup]
    cases hkey : (k == a) with
    | true => rfl
    | false =>
      exact ih (by simpa using (List.nodup_cons.mp (by simpa using hn)).2)
  | swap x y l =>
    obtain ⟨a, b⟩ := x
    obtain ⟨c, d⟩ := y
    have hac : c ≠ a := by
      have h' := hn
      simp only [List.map_cons, List.nodup_cons, List.mem_cons] at h'
      exact fun h => h'.1 (Or.inl h)
    simp only [List.lookup]
    cases hkc : (k == c) with
    | true =>
      have : k = c := by simpa using hkc
      have hka : (k == a) = false := by
        simp [this, hac]
      simp [hka]
    | false => rfl
  | trans hp₁ hp₂ ih₁ ih₂ =>
    have hn₂ : ((_ : List (String × β)).map Prod.fst).Nodup := (hp₁.map Prod.fst).nodup hn
    exact (ih₁ hn).trans (ih₂ hn₂)

/-- The Go pattern `acc = append(acc, f x); hosts = append(hosts, g x)` over a
loop, as a fold, equals the two mapped lists. -/
theorem foldl_double_append {α β γ : Type} (f : α → β) (g : α → γ) (l : List α)
    (a : List β) (b : List γ) :
    l.foldl (fun acc x => (acc.1 ++ [f x], acc.2 ++ [g x])) (a, b)
      = (a ++ l.map f, b ++ l.map g) := by
  induction l generalizing a b with
  | nil => simp
  | cons x t ih => simp [ih]

/-- Go's `acc = append(acc, f(x)...)` over a loop, as a fold. -/
theorem foldl_flat_append {α β : Type} (f : α → List β) (l : List α) (a : List β) :
    l.foldl (fun acc x => acc ++ f x) a = a ++ l.flatMap f := by
  induction l generalizing a with
  | nil => simp
  | cons x t ih => simp [ih]

/-! ## Security bootstrap: passwords and credential hashes
(`randomPassword`, `randomSaltHash`, `solrPasswordHash`) -/

/-- `lower` of `randomPassword`: lowercase letters without `'o'`. -/
def passwordLower : String := "abcdefghijklmnpqrstuvwxyz"

/-- `upper := strings.ToUpper(lower)`, written out. -/
def passwordUpper : String := "ABCDEFGHIJKLMNPQRSTUVWXYZ"

/-- `digits` of `randomPassword`. -/
def passwordDigits : String := "0123456789"

/-- `chars := lower + upper + digits + "()[]%#@-()[]%#@-"`. -/
def passwordChars : String := passwordLower ++ passwordUpper ++ passwordDigits ++ "()[]%#@-()[]%#@-"

/-- `randomPassword` builds a 16-byte password: byte 0 is `lower[rand.Intn(len(lower))]`,
byte 15 is `upper[rand.Intn(len(upper))]`, bytes 1–14 are `chars[perm[i]]` for a random
permutation `perm := rand.Perm(len(chars))`.  The three random draws of the Go code
(`i0`, `iLast`, `perm`) are explicit arguments here. -/
def randomPassword (i0 iLast : Nat) (perm : List Nat) : List Char :=
  passwordLower.toList.getD i0 'a' ::
    ((List.range' 1 14).map (fun i => passwordChars.toList.getD (perm.getD i 0) '0')
      ++ [passwordUpper.toList.getD iLast 'A'])

/-- `randomSaltHash`: `sha256` of 32 random bytes.  The hash `H` and the random
bytes are explicit arguments. -/
def randomSaltHash (H : List Nat → List Nat) (randBytes : List Nat) : List Nat :=
  H randBytes

/-- `solrPasswordHash`: the Solr credential string
`base64(H(H(salt ++ password)))` + `" "` + `base64(salt)` (Go:
`fmt.Sprintf("%s %s", passHash, b64.StdEncoding.EncodeToString(salt))`). -/
def solrPasswordHash (H : List Nat → List Nat) (randBytes passBytes : List Nat) : String :=
  let salt := randomSaltHash H randBytes
  let passHashBytes := H (salt ++ passBytes)
  let passHashBytes2 := H passHashBytes
  let passHash := base64Encode passHashBytes2
  passHash ++ " " ++ base64Encode salt

/-! ## Kubernetes object fragments -/

structure HostPathVolumeSource where
  path : String
deriving DecidableEq

structure EmptyDirVolumeSource where
  sizeLimit : Option String
deriving DecidableEq

/-- The ephemeral-storage block of the SolrCloud spec: at most one of the two
sources is meant to be set. -/
structure SolrEphemeralDataStorageOptions where
  hostPath : Option HostPathVolumeSource
  emptyDir : Option EmptyDirVolumeSource
deriving DecidableEq

/-- A `corev1.VolumeSource`, restricted to the source kinds this file sets. -/
structure VolumeSource where
  hostPath : Option HostPathVolumeSource := none
  emptyDir : Option EmptyDirVolumeSource := none
  configMapName : Option String := none
  secretName : Option String := none
deriving DecidableEq

structure Volume where
  name : String
  source : VolumeSource
deriving DecidableEq

structure VolumeMount where
  name : String
  mountPath : String
deriving DecidableEq

structure HostAlias where
  ip : String
  hostnames : List String
deriving DecidableEq

/-- A `corev1.Handler`: an HTTP GET or an exec action. -/
inductive Handler where
  | httpGet (scheme : String) (path : String) (port : Nat)
  | exec (command : List String)
deriving DecidableEq

structure Probe where
  initialDelaySeconds : Nat
  timeoutSeconds : Nat
  successThreshold : Nat
  failureThreshold : Nat
  periodSeconds : Nat
  handler : Handler
deriving DecidableEq

structure Lifecycle where
  postStart : Option Handler
  preStop : Option Handler
deriving DecidableEq

structure EnvVar where
  name : String
  value : String
deriving DecidableEq

/-! ## Backup repositories (`GenerateBackupRepositoriesForSolrXml`) -/

/-- A backup repository declaration.  The per-variant dispatch functions
(`AdditionalRepoLibs`, `RepoXML`, `RepoVolumeSourceAndMount`, `RepoVolumeName`,
`IsRepoManaged`) live outside this file in the repository; modelled from the
spec ("dispatch on its variant to produce: a volume source (or none ...), a
mount point, a configuration-fragment string ..., and a list of required
shared-library names"), a repository is carried together with the artifacts
that dispatch derives from it. -/
structure SolrBackupRepository where
  name : String
  libs : List String
  xml : String
  managed : Bool
  volumeSource : Option VolumeSource
  mountPath : String
deriving DecidableEq

def AdditionalRepoLibs (repo : SolrBackupRepository) : List String := repo.libs

def RepoXML (repo : SolrBackupRepository) : String := repo.xml

def IsRepoManaged (repo : SolrBackupRepository) : Bool := repo.managed

/-- Modelled from the spec: the volume name of a repository volume, derived
deterministically from the repository name. -/
def RepoVolumeName (repo : SolrBackupRepository) : String :=
  "backup-repository-" ++ repo.name

/-- Modelled from the spec: the per-variant volume binding of a repository
(`none` when the provider manages storage externally), carried on the
repository model. -/
def RepoVolumeSourceAndMount (repo : SolrBackupRepository) : Option VolumeSource × VolumeMount :=
  (repo.volumeSource, ⟨"", repo.mountPath⟩)

/-- `GenerateBackupRepositoriesForSolrXml`: collect each repository's libraries
into a set (the fold models the insertions into the Go map `libs`, whose later
iteration order is arbitrary; sorting cancels it), sort the XML fragments and
the deduplicated library list, and splice them into the fixed template. -/
def GenerateBackupRepositoriesForSolrXml (backupRepos : List SolrBackupRepository) : String :=
  if backupRepos.length = 0 then ""
  else
    let libsInserted := backupRepos.foldl (fun acc repo => acc ++ AdditionalRepoLibs repo) []
    let repoXMLs := (backupRepos.map RepoXML).mergeSort strLe
    let libXml :=
      if libsInserted.dedup.length > 0 then
        "<str name=\"sharedLib\">" ++
          String.intercalate "," (libsInserted.dedup.mergeSort strLe) ++ "</str>"
      else ""
    libXml ++ " \n\t\t<backup>\n\t\t" ++ String.intercalate "\n" repoXMLs ++ "\n\t\t</backup>"

/-! ## Basic-auth secret validation (`ValidateBasicAuthSecret`) -/

def BasicAuthUsernameKey : String := "username"

def BasicAuthPasswordKey : String := "password"

def SecretTypeBasicAuth : String := "kubernetes.io/basic-auth"

/-- A Kubernetes secret: a name, a type, and byte-valued data keys. -/
structure Secret where
  name : String
  secretType : String
  data : List (String × List Nat)
deriving DecidableEq

/-- `ValidateBasicAuthSecret` reports (never repairs) an invalid user-provided
basic-auth secret: wrong secret type, or a missing username or password key. -/
def ValidateBasicAuthSecret (s : Secret) : Except String Unit :=
  if s.secretType ≠ SecretTypeBasicAuth then
    .error ("invalid secret type " ++ s.secretType ++ "; user-provided secret " ++ s.name
      ++ " must be of type: " ++ SecretTypeBasicAuth)
  else if (s.data.lookup BasicAuthUsernameKey).isNone then
    .error (BasicAuthUsernameKey ++ " key not found in user-provided basic-auth secret " ++ s.name)
  else if (s.data.lookup BasicAuthPasswordKey).isNone then
    .error (BasicAuthPasswordKey ++ " key not found in user-provided basic-auth secret " ++ s.name)
  else
    .ok ()

/-! ## SolrCloud input model -/

/-- The persistent-volume-claim template inside the persistent-storage options
(only the parts `GenerateStatefulSet` reads). -/
structure PersistentVolumeClaimTemplate where
  name : String
  labels : LabelMap
  annotations : LabelMap
  accessModes : List String
  volumeMode : Option String

structure SolrPersistentDataStorageOptions where
  pvcTemplate : PersistentVolumeClaimTemplate

structure SolrDataStorageOptions where
  persistentStorage : Option SolrPersistentDataStorageOptions
  ephemeralStorage : Option SolrEphemeralDataStorageOptions

inductive ClientAuthType where
  | None
  | Want
  | Need
deriving DecidableEq

structure TLSOptions where
  clientAuth : ClientAuthType
deriving DecidableEq

structure TLSServerConfig where
  options : TLSOptions
deriving DecidableEq

/-- The TLS material handed to `GenerateStatefulSet` (`*TLSCerts`). -/
structure TLSCerts where
  serverConfig : Option TLSServerConfig
deriving DecidableEq

/-- `spec.SolrTLS`.  `javaToolOpts`/`javaSysProps` model the output of
`secureProbeTLSJavaToolOpts`, which lives outside this file; modelled from the
spec ("add required environment/runtime options"), its exact content is
carried abstractly on the options. -/
structure SolrTLSOptions where
  pkcs12Secret : Option String := none
  javaToolOpts : String := ""
  javaSysProps : String := ""
deriving DecidableEq

structure SolrSecurityOptions where
  probesRequireAuth : Bool
deriving DecidableEq

structure ExternalAddressability where
  method : String
  hideCommon : Bool
  hideNodes : Bool
  domainName : String
  additionalDomainNames : List String
  ingressTLSTerminationSecret : String
deriving DecidableEq

structure SolrAddressabilityOptions where
  podPort : Nat
  commonServicePort : Nat
  external : Option ExternalAddressability
deriving DecidableEq

/-- An explicit probe override from the custom pod options.  `none` fields are
the Go zero values (the override does not touch them). -/
structure ProbeOverride where
  handler : Option Handler := none
  initialDelaySeconds : Option Nat := none
  timeoutSeconds : Option Nat := none
  successThreshold : Option Nat := none
  failureThreshold : Option Nat := none
  periodSeconds : Option Nat := none

/-- Modelled from the spec (§4.8): explicit probe overrides apply with
"override-wins-over-computed-default precedence on every field it touches"
(`customizeProbe` lives outside this file); untouched fields keep the
computed default. -/
def customizeProbe (base : Probe) (c : ProbeOverride) : Probe :=
  { handler := c.handler.getD base.handler
    initialDelaySeconds := c.initialDelaySeconds.getD base.initialDelaySeconds
    timeoutSeconds := c.timeoutSeconds.getD base.timeoutSeconds
    successThreshold := c.successThreshold.getD base.successThreshold
    failureThreshold := c.failureThreshold.getD base.failureThreshold
    periodSeconds := c.periodSeconds.getD base.periodSeconds }

structure CustomVolume where
  name : String
  source : VolumeSource
  defaultContainerMount : Option VolumeMount

structure PodOptions where
  labels : LabelMap := LabelMap.empty
  annotations : LabelMap := LabelMap.empty
  volumes : List CustomVolume := []
  lifecycle : Option Lifecycle := none
  livenessProbe : Option ProbeOverride := none
  readinessProbe : Option ProbeOverride := none
  startupProbe : Option ProbeOverride := none
  terminationGracePeriodSeconds : Option Int := none

structure StatefulSetOptions where
  labels : LabelMap := LabelMap.empty
  annotations : LabelMap := LabelMap.empty
  podManagementPolicy : String := ""

/-- The common shape of the config-map, service and ingress custom options
(only labels/annotations are read by the generators in this file). -/
structure KubeOptions where
  labels : LabelMap := LabelMap.empty
  annotations : LabelMap := LabelMap.empty

structure CustomSolrKubeOptions where
  podOptions : Option PodOptions := none
  statefulSetOptions : Option StatefulSetOptions := none
  commonServiceOptions : Option KubeOptions := none
  headlessServiceOptions : Option KubeOptions := none
  nodeServiceOptions : Option KubeOptions := none
  configMapOptions : Option KubeOptions := none
  ingressOptions : Option KubeOptions := none

structure UpdateStrategy where
  method : String
deriving DecidableEq

structure SolrCloudSpec where
  replicas : Option Nat
  solrAddressability : SolrAddressabilityOptions
  solrSecurity : Option SolrSecurityOptions
  solrTLS : Option SolrTLSOptions
  storageOptions : SolrDataStorageOptions
  customSolrKubeOptions : CustomSolrKubeOptions
  backupRepositories : List SolrBackupRepository
  updateStrategy : UpdateStrategy

/-- The SolrCloud resource.  The URL-derivation methods
(`ExternalCommonUrl`, `ExternalNodeUrl`, `ExternalDnsDomain`) live outside this
file; modelled from the spec ("compute a host name deterministically from
cluster name, configured domain(s), and mode"), they are carried as
deterministic functions of the domain (and node) name. -/
structure SolrCloud where
  name : String
  namespaceName : String
  metaLabels : LabelMap
  spec : SolrCloudSpec
  externalCommonUrl : String → String
  externalNodeUrl : String → String → String
  externalDnsDomain : String → String

structure SolrCloudStatus where
  zkConnectionString : String
deriving DecidableEq

/-! ## Constants of `solr_util.go` -/

def SolrXmlFile : String := "solr.xml"

def LogXmlFile : String := "log4j2.xml"

def SecurityJsonFile : String := "security.json"

def DefaultProbePath : String := "/admin/info/system"

def SolrZKConnStringAnnKey : String := "solr.apache.org/zkConnectionString"

def SolrXmlMd5AnnKey : String := "solr.apache.org/solrXmlMd5"

def SolrPVCTechnologyLabel : String := "solr.apache.org/technology"

def SolrCloudPVCTechnology : String := "solr-cloud"

def SolrPVCStorageLabel : String := "solr.apache.org/storage"

def SolrCloudPVCDataStorage : String := "data"

def SolrPVCInstanceLabel : String := "solr.apache.org/instance"

/-! ## SolrCloud derived names and accessors.
The naming methods live outside this file; modelled from the spec: "workload
name derives deterministically from the cluster instance name with a fixed
suffix; the ... services ... derive their names the same way with
kind-specific suffixes; the configuration-map name likewise". -/

def SolrCloud.statefulSetName (sc : SolrCloud) : String := sc.name ++ "-solrcloud"

def SolrCloud.headlessServiceName (sc : SolrCloud) : String := sc.name ++ "-solrcloud-headless"

def SolrCloud.commonServiceName (sc : SolrCloud) : String := sc.name ++ "-solrcloud-common"

def SolrCloud.configMapName (sc : SolrCloud) : String := sc.name ++ "-solrcloud-configmap"

def SolrCloud.commonIngressName (sc : SolrCloud) : String := sc.name ++ "-solrcloud-common"

def SolrCloud.basicAuthSecretName (sc : SolrCloud) : String := sc.name ++ "-solrcloud-basic-auth"

def SolrCloud.securityBootstrapSecretName (sc : SolrCloud) : String :=
  sc.name ++ "-solrcloud-security-bootstrap"

/-- Modelled from the spec: `UsesPersistentStorage` — the storage-mode choice
is persistent exactly when the persistent block is present. -/
def SolrCloud.usesPersistentStorage (sc : SolrCloud) : Bool :=
  sc.spec.storageOptions.persistentStorage.isSome

/-- Modelled from the spec: `UrlScheme` — encrypted scheme exactly when TLS is
configured. -/
def SolrCloud.urlScheme (sc : SolrCloud) : String :=
  if sc.spec.solrTLS.isSome then "https" else "http"

/-- Modelled from the spec: `NodePort` — the port a Solr node is addressed on. -/
def SolrCloud.nodePort (sc : SolrCloud) : Nat :=
  sc.spec.solrAddressability.podPort

/-! ## ZooKeeper connection resolution -/

/-- `strings.SplitN(s, "/", 2)` on the character level: the part before the
first `'/'` and, when a `'/'` occurs, the rest. -/
def breakAtSlash : List Char → List Char × Option (List Char)
  | [] => ([], none)
  | c :: rest =>
    if c = '/' then ([], some rest)
    else
      let p := breakAtSlash rest
      (c :: p.1, p.2)

/-- `strings.TrimSpace` on the character level. -/
def trimChars (l : List Char) : List Char :=
  ((l.dropWhile Char.isWhitespace).reverse.dropWhile Char.isWhitespace).reverse

def trimString (s : String) : String := String.mk (trimChars s.toList)

/-- Modelled from the spec: `SolrCloudStatus.DissectZkInfo` (outside this file)
splits the connection string at the first `/` into the server list and the
chroot; the chroot is trimmed of whitespace and always starts with `/` (`"/"`
alone when the connection string carries no chroot). -/
def DissectZkInfo (status : SolrCloudStatus) : String × String × String :=
  let conn := status.zkConnectionString
  match breakAtSlash conn.toList with
  | (server, none) => (conn, String.mk server, "/")
  | (server, some rest) => (conn, String.mk server, "/" ++ trimString (String.mk rest))

/-- `createZkConnectionEnvVars`: the ZK environment bindings, the extra
`SOLR_OPTS` token, and whether the chroot is non-trivial (`len(zkChroot) > 1`).
The ACL environment bindings (`GetACLs`/`AddACLsToEnv`, outside this file) are
not modelled; no claim concerns them, so the `solrOpt` component is the
no-ACL value `""`. -/
def createZkConnectionEnvVars (solrCloud : SolrCloud) (solrCloudStatus : SolrCloudStatus) :
    List EnvVar × String × Bool :=
  let zkInfo := DissectZkInfo solrCloudStatus
  let envVars : List EnvVar :=
    [⟨"ZK_HOST", zkInfo.1⟩, ⟨"ZK_CHROOT", zkInfo.2.2⟩, ⟨"ZK_SERVER", zkInfo.2.1⟩]
  (envVars, "", zkInfo.2.2.length > 1)

/-! ## Secure probe command (`configureSecureProbeCommand`) -/

/-- Go `regexp \s+ → " "` after `strings.TrimSpace`: trim, then collapse every
whitespace run to a single space. -/
def collapseWhitespace (s : String) : String :=
  String.mk (((trimString s).toList.foldl
    (fun (acc : List Char × Bool) c =>
      if c.isWhitespace then (if acc.2 then acc else (acc.1 ++ [' '], true))
      else (acc.1 ++ [c], false))
    ([], false)).1)

/-- `secureProbeTLSJavaToolOpts` (outside this file; modelled from the spec):
extra JVM options/props when TLS is enabled, carried on the TLS options. -/
def secureProbeTLSJavaToolOpts (solrCloud : SolrCloud) : String × String :=
  match solrCloud.spec.solrTLS with
  | some t => (t.javaToolOpts, t.javaSysProps)
  | none => ("", "")

/-- `configureSecureProbeCommand` builds the SolrCLI `api` probe command and,
when the probes must authenticate, the basic-auth secret volume and mount the
command reads the credentials from (`$(cat <file>)`, never environment
variables).  `probePath`/`probePort` are the fields of the default HTTP GET
handler the command replaces. -/
def configureSecureProbeCommand (solrCloud : SolrCloud) (probePath : String) (probePort : Nat) :
    String × Option Volume × Option VolumeMount :=
  let secure :=
    match solrCloud.spec.solrSecurity with
    | some sec => sec.probesRequireAuth
    | none => false
  let (basicAuthOption, enableBasicAuth, vol, volMount) :=
    if secure then
      let secretName := solrCloud.basicAuthSecretName
      let volName := String.mk (secretName.toList.map (fun c => if c = '.' then '-' else c))
      let vol : Volume := ⟨volName, { secretName := some secretName }⟩
      let mountPath := "/etc/secrets/" ++ volName
      let volMount : VolumeMount := ⟨volName, mountPath⟩
      let usernameFile := mountPath ++ "/" ++ BasicAuthUsernameKey
      let passwordFile := mountPath ++ "/" ++ BasicAuthPasswordKey
      ("-Dbasicauth=$(cat " ++ usernameFile ++ "):$(cat " ++ passwordFile ++ ")",
        " -Dsolr.httpclient.builder.factory=org.apache.solr.client.solrj.impl.PreemptiveBasicAuthClientBuilderFactory ",
        some vol, some volMount)
    else ("", "", none, none)
  let (tlsJavaToolOpts, tlsJavaSysProps) := secureProbeTLSJavaToolOpts solrCloud
  let javaToolOptions := trimString (basicAuthOption ++ " " ++ tlsJavaToolOpts)
  let probeCommand :=
    "JAVA_TOOL_OPTIONS=\"" ++ javaToolOptions ++ "\" java " ++ tlsJavaSysProps ++ " "
      ++ enableBasicAuth ++ " "
      ++ "-Dsolr.install.dir=\"/opt/solr\" -Dlog4j.configurationFile=\"/opt/solr/server/resources/log4j2-console.xml\" "
      ++ "-classpath \"/opt/solr/server/solr-webapp/webapp/WEB-INF/lib/*:/opt/solr/server/lib/ext/*:/opt/solr/server/lib/*\" "
      ++ "org.apache.solr.util.SolrCLI api -get " ++ solrCloud.urlScheme ++ "://localhost:"
      ++ toString probePort ++ probePath
  (collapseWhitespace probeCommand, vol, volMount)

/-! ## The StatefulSet generator (`GenerateStatefulSet`) -/

/-- The host-alias block: collect the keys of the host-name→IP map (the list
order models the arbitrary Go map iteration order), sort them, and emit one
alias per host; `nil` when the map is empty. -/
def generateHostAliases (hostNameIPs : List (String × String)) : Option (List HostAlias) :=
  if hostNameIPs.length = 0 then none
  else
    let hostNames := (hostNameIPs.map Prod.fst).mergeSort strLe
    some (hostNames.map fun hn => ⟨(hostNameIPs.lookup hn).getD "", [hn]⟩)

/-- The generated StatefulSet, projected onto the fields the verified claims
concern.  Init containers, environment variables, image/pull configuration,
resources/affinity/tolerations overrides, the user-provided log-config block
and the md5 bookkeeping of that block, and the TLS post-processing
(`enableTLSOnSolrCloudStatefulSet`, outside this file) touch none of these
fields and are not modelled. -/
structure StatefulSetModel where
  name : String
  namespaceName : String
  labels : LabelMap
  annotations : LabelMap
  selector : LabelMap
  serviceName : String
  replicas : Option Nat
  podManagementPolicy : String
  updateStrategyType : String
  podLabels : LabelMap
  podAnnotations : LabelMap
  terminationGracePeriodSeconds : Int
  volumes : List Volume
  volumeMounts : List VolumeMount
  hostAliases : Option (List HostAlias)
  livenessProbe : Probe
  readinessProbe : Probe
  startupProbe : Option Probe
  lifecycle : Lifecycle
  volumeClaimTemplates : List PersistentVolumeClaimTemplate

/-- The StatefulSet base labels: shared internal labels merged with the
resource's own metadata labels, plus the `technology` label set before any
user merge. -/
def generateSSBaseLabels (solrCloud : SolrCloud) : LabelMap :=
  (SharedLabelsWith solrCloud.name solrCloud.metaLabels).set "technology" SolrTechnologyLabel

/-- The StatefulSet labels after the kind-specific user override merge. -/
def generateSSLabels (solrCloud : SolrCloud) : LabelMap :=
  match solrCloud.spec.customSolrKubeOptions.statefulSetOptions with
  | some o => MergeLabelsOrAnnotations (generateSSBaseLabels solrCloud) o.labels
  | none => generateSSBaseLabels solrCloud

def generateSSSelectorLabels (solrCloud : SolrCloud) : LabelMap :=
  (SharedLabels solrCloud.name).set "technology" SolrTechnologyLabel

/-- The StatefulSet annotations: the ZK connection-string annotation, merged
with the kind-specific user override. -/
def generateSSAnns (solrCloud : SolrCloud) (solrCloudStatus : SolrCloudStatus) : LabelMap :=
  let anns := LabelMap.ofList [(SolrZKConnStringAnnKey, solrCloudStatus.zkConnectionString)]
  match solrCloud.spec.customSolrKubeOptions.statefulSetOptions with
  | some o => MergeLabelsOrAnnotations anns o.annotations
  | none => anns

/-- Pod-template labels: the base labels (captured before the StatefulSet
override merge) merged with the pod-options labels. -/
def generateSSPodLabels (solrCloud : SolrCloud) : LabelMap :=
  match solrCloud.spec.customSolrKubeOptions.podOptions with
  | some o => MergeLabelsOrAnnotations (generateSSBaseLabels solrCloud) o.labels
  | none => generateSSBaseLabels solrCloud

/-- Pod-template annotations: the pod-options annotations plus the solr.xml
md5 marker when present. -/
def generateSSPodAnns (solrCloud : SolrCloud) (reconcileConfigInfo : String → String) : LabelMap :=
  let podAnns : LabelMap := match solrCloud.spec.customSolrKubeOptions.podOptions with
    | some o => o.annotations
    | none => LabelMap.empty
  if reconcileConfigInfo SolrXmlMd5AnnKey ≠ "" then
    podAnns.set SolrXmlMd5AnnKey (reconcileConfigInfo SolrXmlMd5AnnKey)
  else podAnns

/-- The ephemeral data-volume source selection: host-path first, else the
explicit empty-dir, else an unconstrained empty-dir default. -/
def ephemeralDataVolumeSource (storage : Option SolrEphemeralDataStorageOptions) : VolumeSource :=
  match storage with
  | some es =>
    match es.hostPath with
    | some hp => { hostPath := some hp }
    | none =>
      match es.emptyDir with
      | some ed => { emptyDir := some ed }
      | none => { emptyDir := some ⟨none⟩ }
  | none => { emptyDir := some ⟨none⟩ }

/-- The persistent-mode volume-claim templates: defaulted name, access modes
and volume mode, and internal storage labels merged under the user labels. -/
def generatePvcs (solrCloud : SolrCloud) : List PersistentVolumeClaimTemplate :=
  match solrCloud.spec.storageOptions.persistentStorage with
  | some ps =>
    let pvc := ps.pvcTemplate
    let pvcName := if pvc.name = "" then "data" else pvc.name
    let accessModes := if pvc.accessModes.length = 0 then ["ReadWriteOnce"] else pvc.accessModes
    let volumeMode := some (pvc.volumeMode.getD "Filesystem")
    let internalLabels := LabelMap.ofList
      [(SolrPVCTechnologyLabel, SolrCloudPVCTechnology),
       (SolrPVCStorageLabel, SolrCloudPVCDataStorage),
       (SolrPVCInstanceLabel, solrCloud.name)]
    let pvcLabels := MergeLabelsOrAnnotations internalLabels pvc.labels
    [{ name := pvcName, labels := pvcLabels, annotations := pvc.annotations,
       accessModes := accessModes, volumeMode := volumeMode }]
  | none => []

/-- The backup-repository loop: append a volume and mount per repository that
carries a volume source. -/
def addRepoVolumes (repos : List SolrBackupRepository)
    (acc : List Volume × List VolumeMount) : List Volume × List VolumeMount :=
  repos.foldl
    (fun (acc : List Volume × List VolumeMount) repo =>
      match (RepoVolumeSourceAndMount repo).1 with
      | some vs =>
        (acc.1 ++ [⟨RepoVolumeName repo, vs⟩],
         acc.2 ++ [⟨RepoVolumeName repo, (RepoVolumeSourceAndMount repo).2.mountPath⟩])
      | none => acc)
    acc

/-- The custom-volume loop of the pod options: append each volume, and its
container mount when one is provided. -/
def addCustomVolumes (customPodOptions : Option PodOptions)
    (acc : List Volume × List VolumeMount) : List Volume × List VolumeMount :=
  match customPodOptions with
  | some o =>
    o.volumes.foldl
      (fun (acc : List Volume × List VolumeMount) (v : CustomVolume) =>
        let mounts := match v.defaultContainerMount with
          | some m => acc.2 ++ [⟨v.name, m.mountPath⟩]
          | none => acc.2
        (acc.1 ++ [⟨v.name, v.source⟩], mounts))
      acc
  | none => acc

/-- The probe-replacement condition of line 360: TLS configured with a server
config requiring client auth, or solr security with `ProbesRequireAuth`. -/
def secureProbeNeeded (solrCloud : SolrCloud) (tls : Option TLSCerts) : Bool :=
  (match tls with
    | some t =>
      match t.serverConfig with
      | some cfg => decide (cfg.options.clientAuth ≠ ClientAuthType.None)
      | none => false
    | none => false)
  || (match solrCloud.spec.solrSecurity with
      | some sec => sec.probesRequireAuth
      | none => false)

/-- The pod volumes and the solr-container mounts: solr.xml config map, the
data volume (ephemeral mode only), backup-repository volumes, custom volumes,
and the secure-probe secret volume when probes are replaced. -/
def generateSSVolumesAndMounts (solrCloud : SolrCloud)
    (reconcileConfigInfo : String → String) (tls : Option TLSCerts) :
    List Volume × List VolumeMount :=
  let solrVolumes : List Volume :=
    [⟨"solr-xml", { configMapName := some (reconcileConfigInfo SolrXmlFile) }⟩]
  let volumeMounts : List VolumeMount := [⟨"data", "/var/solr/data"⟩]
  let solrVolumes :=
    match solrCloud.spec.storageOptions.persistentStorage with
    | some _ => solrVolumes
    | none =>
      solrVolumes ++
        [⟨"data", ephemeralDataVolumeSource solrCloud.spec.storageOptions.ephemeralStorage⟩]
  let acc := addRepoVolumes solrCloud.spec.backupRepositories (solrVolumes, volumeMounts)
  let acc := addCustomVolumes solrCloud.spec.customSolrKubeOptions.podOptions acc
  if secureProbeNeeded solrCloud tls then
    let probeInfo :=
      configureSecureProbeCommand solrCloud ("/solr" ++ DefaultProbePath)
        solrCloud.spec.solrAddressability.podPort
    let vols := match probeInfo.2.1 with
      | some v => acc.1 ++ [v]
      | none => acc.1
    let mounts := match probeInfo.2.2 with
      | some m => acc.2 ++ [m]
      | none => acc.2
    (vols, mounts)
  else acc

/-- The default probe handler and timeout: HTTP GET on the probe path (HTTPS
scheme when TLS material is present), replaced by the SolrCLI exec command
with a raised 5-second timeout when `secureProbeNeeded`. -/
def ssDefaultHandlerAndTimeout (solrCloud : SolrCloud) (tls : Option TLSCerts) : Handler × Nat :=
  let probeScheme := if tls.isSome then "HTTPS" else "HTTP"
  let solrPodPort := solrCloud.spec.solrAddressability.podPort
  if secureProbeNeeded solrCloud tls then
    (Handler.exec ["sh", "-c",
      (configureSecureProbeCommand solrCloud ("/solr" ++ DefaultProbePath) solrPodPort).1], 5)
  else (Handler.httpGet probeScheme ("/solr" ++ DefaultProbePath) solrPodPort, 1)

/-- The liveness, readiness and startup probes of the solr container,
including the user probe overrides (startup derives from the pre-override
liveness probe). -/
def generateSSProbes (solrCloud : SolrCloud) (tls : Option TLSCerts) :
    Probe × Probe × Option Probe :=
  let dht := ssDefaultHandlerAndTimeout solrCloud tls
  let livenessProbe : Probe := ⟨20, dht.2, 1, 3, 10, dht.1⟩
  let readinessProbe : Probe := ⟨15, dht.2, 1, 3, 5, dht.1⟩
  let customPodOptions := solrCloud.spec.customSolrKubeOptions.podOptions
  let startupProbe : Option Probe := match customPodOptions with
    | some o =>
      match o.startupProbe with
      | some p =>
        some (customizeProbe { livenessProbe with timeoutSeconds := 30, failureThreshold := 15 } p)
      | none => none
    | none => none
  let livenessProbe := match customPodOptions with
    | some o =>
      match o.livenessProbe with
      | some p => customizeProbe livenessProbe p
      | none => livenessProbe
    | none => livenessProbe
  let readinessProbe := match customPodOptions with
    | some o =>
      match o.readinessProbe with
      | some p => customizeProbe readinessProbe p
      | none => readinessProbe
    | none => readinessProbe
  (livenessProbe, readinessProbe, startupProbe)

/-- The solr-container lifecycle: the chroot-creating postStart hook when the
chroot is non-trivial, the `solr stop` preStop hook, both replaced wholesale
by a user lifecycle override when one is given. -/
def generateSSLifecycle (solrCloud : SolrCloud) (solrCloudStatus : SolrCloudStatus) : Lifecycle :=
  let hasChroot := (createZkConnectionEnvVars solrCloud solrCloudStatus).2.2
  let postStart : Option Handler :=
    if hasChroot then
      some (.exec ["sh", "-c",
        "solr zk ls ${ZK_CHROOT} -z ${ZK_SERVER} || solr zk mkroot ${ZK_CHROOT} -z ${ZK_SERVER}"])
    else none
  let preStop : Handler :=
    .exec ["solr", "stop", "-p", toString solrCloud.spec.solrAddressability.podPort]
  let lifecycle : Lifecycle := ⟨postStart, some preStop⟩
  match solrCloud.spec.customSolrKubeOptions.podOptions with
  | some o => o.lifecycle.getD lifecycle
  | none => lifecycle

def ssTerminationGracePeriod (solrCloud : SolrCloud) : Int :=
  match solrCloud.spec.customSolrKubeOptions.podOptions with
  | some o => o.terminationGracePeriodSeconds.getD 60
  | none => 60

def ssUpdateStrategyType (solrCloud : SolrCloud) : String :=
  if solrCloud.spec.updateStrategy.method = "StatefulSet" then "RollingUpdate" else "OnDelete"

def ssPodManagementPolicy (solrCloud : SolrCloud) : String :=
  match solrCloud.spec.customSolrKubeOptions.statefulSetOptions with
  | some o => if o.podManagementPolicy ≠ "" then o.podManagementPolicy else "Parallel"
  | none => "Parallel"

/-- `GenerateStatefulSet`, composed of the component functions above (each the
direct translation of its block of `solr_util.go`). -/
def GenerateStatefulSet (solrCloud : SolrCloud) (solrCloudStatus : SolrCloudStatus)
    (hostNameIPs : List (String × String)) (reconcileConfigInfo : String → String)
    (tls : Option TLSCerts) : StatefulSetModel :=
  let volsAndMounts := generateSSVolumesAndMounts solrCloud reconcileConfigInfo tls
  let probes := generateSSProbes solrCloud tls
  { name := solrCloud.statefulSetName
    namespaceName := solrCloud.namespaceName
    labels := generateSSLabels solrCloud
    annotations := generateSSAnns solrCloud solrCloudStatus
    selector := generateSSSelectorLabels solrCloud
    serviceName := solrCloud.headlessServiceName
    replicas := solrCloud.spec.replicas
    podManagementPolicy := ssPodManagementPolicy solrCloud
    updateStrategyType := ssUpdateStrategyType solrCloud
    podLabels := generateSSPodLabels solrCloud
    podAnnotations := generateSSPodAnns solrCloud reconcileConfigInfo
    terminationGracePeriodSeconds := ssTerminationGracePeriod solrCloud
    volumes := volsAndMounts.1
    volumeMounts := volsAndMounts.2
    hostAliases := generateHostAliases hostNameIPs
    livenessProbe := probes.1
    readinessProbe := probes.2.1
    startupProbe := probes.2.2
    lifecycle := generateSSLifecycle solrCloud solrCloudStatus
    volumeClaimTemplates := generatePvcs solrCloud }

/-! ## ConfigMap (`GenerateConfigMap`) -/

/-- `DefaultSolrXML`: the fixed solr.xml template with one `%s` substitution
point for the aggregated backup-repository fragment. -/
def DefaultSolrXML : String :=
  "<?xml version=\"1.0\" encoding=\"UTF-8\" ?>\n<solr>\n  <solrcloud>\n    <str name=\"host\">$\x7bhost:\x7d</str>\n    <int name=\"hostPort\">$\x7bhostPort:80\x7d</int>\n    <str name=\"hostContext\">$\x7bhostContext:solr\x7d</str>\n    <bool name=\"genericCoreNodeNames\">$\x7bgenericCoreNodeNames:true\x7d</bool>\n    <int name=\"zkClientTimeout\">$\x7bzkClientTimeout:30000\x7d</int>\n    <int name=\"distribUpdateSoTimeout\">$\x7bdistribUpdateSoTimeout:600000\x7d</int>\n    <int name=\"distribUpdateConnTimeout\">$\x7bdistribUpdateConnTimeout:60000\x7d</int>\n    <str name=\"zkCredentialsProvider\">$\x7bzkCredentialsProvider:org.apache.solr.common.cloud.DefaultZkCredentialsProvider\x7d</str>\n    <str name=\"zkACLProvider\">$\x7bzkACLProvider:org.apache.solr.common.cloud.DefaultZkACLProvider\x7d</str>\n  </solrcloud>\n  <shardHandlerFactory name=\"shardHandlerFactory\"\n    class=\"HttpShardHandlerFactory\">\n    <int name=\"socketTimeout\">$\x7bsocketTimeout:600000\x7d</int>\n    <int name=\"connTimeout\">$\x7bconnTimeout:60000\x7d</int>\n  </shardHandlerFactory>\n  %s\n</solr>\n"

/-- `GenerateSolrXMLString`: `fmt.Sprintf(DefaultSolrXML, backupSection)` —
the template contains exactly one `%s` verb. -/
def GenerateSolrXMLString (backupSection : String) : String :=
  DefaultSolrXML.replace "%s" backupSection

structure ConfigMapModel where
  name : String
  namespaceName : String
  labels : LabelMap
  annotations : LabelMap
  solrXml : String

def GenerateConfigMap (solrCloud : SolrCloud) : ConfigMapModel :=
  let labels := SharedLabelsWith solrCloud.name solrCloud.metaLabels
  let annotations : LabelMap := LabelMap.empty
  let customOptions := solrCloud.spec.customSolrKubeOptions.configMapOptions
  let (labels, annotations) : LabelMap × LabelMap := match customOptions with
    | some o =>
      (MergeLabelsOrAnnotations labels o.labels, MergeLabelsOrAnnotations annotations o.annotations)
    | none => (labels, annotations)
  let backupSection := GenerateBackupRepositoriesForSolrXml solrCloud.spec.backupRepositories
  { name := solrCloud.configMapName
    namespaceName := solrCloud.namespaceName
    labels := labels
    annotations := annotations
    solrXml := GenerateSolrXMLString backupSection }

/-! ## Services -/

def SolrClientPortName : String := "solr-client"

def ExternalDNSMethod : String := "ExternalDNS"

structure ServiceModel where
  name : String
  namespaceName : String
  labels : LabelMap
  annotations : LabelMap
  selector : LabelMap
  portName : String
  port : Nat
  clusterIP : Option String
  publishNotReadyAddresses : Bool

/-- The external-DNS annotation block shared by the common and headless
services. -/
def externalDnsAnnotationValue (solrCloud : SolrCloud) (ext : ExternalAddressability) : String :=
  let urls := solrCloud.externalDnsDomain ext.domainName
    :: ext.additionalDomainNames.map solrCloud.externalDnsDomain
  String.intercalate "," urls

def GenerateCommonService (solrCloud : SolrCloud) : ServiceModel :=
  let labels := SharedLabelsWith solrCloud.name solrCloud.metaLabels
  let labels := labels.set "service-type" "common"
  let selectorLabels := SharedLabels solrCloud.name
  let selectorLabels := selectorLabels.set "technology" SolrTechnologyLabel
  let annotations : LabelMap :=
    match solrCloud.spec.solrAddressability.external with
    | some ext =>
      if ext.method = ExternalDNSMethod && !ext.hideCommon then
        LabelMap.ofList
          [("external-dns.alpha.kubernetes.io/hostname", externalDnsAnnotationValue solrCloud ext)]
      else LabelMap.empty
    | none => LabelMap.empty
  let customOptions := solrCloud.spec.customSolrKubeOptions.commonServiceOptions
  let (labels, annotations) : LabelMap × LabelMap := match customOptions with
    | some o =>
      (MergeLabelsOrAnnotations labels o.labels, MergeLabelsOrAnnotations annotations o.annotations)
    | none => (labels, annotations)
  { name := solrCloud.commonServiceName
    namespaceName := solrCloud.namespaceName
    labels := labels
    annotations := annotations
    selector := selectorLabels
    portName := SolrClientPortName
    port := solrCloud.spec.solrAddressability.commonServicePort
    clusterIP := none
    publishNotReadyAddresses := false }

def GenerateHeadlessService (solrCloud : SolrCloud) : ServiceModel :=
  let labels := SharedLabelsWith solrCloud.name solrCloud.metaLabels
  let labels := labels.set "service-type" "headless"
  let selectorLabels := SharedLabels solrCloud.name
  let selectorLabels := selectorLabels.set "technology" SolrTechnologyLabel
  let annotations : LabelMap :=
    match solrCloud.spec.solrAddressability.external with
    | some ext =>
      if ext.method = ExternalDNSMethod && !ext.hideNodes then
        LabelMap.ofList
          [("external-dns.alpha.kubernetes.io/hostname", externalDnsAnnotationValue solrCloud ext)]
      else LabelMap.empty
    | none => LabelMap.empty
  let customOptions := solrCloud.spec.customSolrKubeOptions.headlessServiceOptions
  let (labels, annotations) : LabelMap × LabelMap := match customOptions with
    | some o =>
      (MergeLabelsOrAnnotations labels o.labels, MergeLabelsOrAnnotations annotations o.annotations)
    | none => (labels, annotations)
  { name := solrCloud.headlessServiceName
    namespaceName := solrCloud.namespaceName
    labels := labels
    annotations := annotations
    selector := selectorLabels
    portName := SolrClientPortName
    port := solrCloud.nodePort
    clusterIP := some "None"
    publishNotReadyAddresses := true }

def GenerateNodeService (solrCloud : SolrCloud) (nodeName : String) : ServiceModel :=
  let labels := SharedLabelsWith solrCloud.name solrCloud.metaLabels
  let labels := labels.set "service-type" "external"
  let selectorLabels := SharedLabels solrCloud.name
  let selectorLabels := selectorLabels.set "technology" SolrTechnologyLabel
  let selectorLabels := selectorLabels.set "statefulset.kubernetes.io/pod-name" nodeName
  let customOptions := solrCloud.spec.customSolrKubeOptions.nodeServiceOptions
  let (labels, annotations) : LabelMap × LabelMap := match customOptions with
    | some o =>
      (MergeLabelsOrAnnotations labels o.labels, MergeLabelsOrAnnotations LabelMap.empty o.annotations)
    | none => (labels, LabelMap.empty)
  { name := nodeName
    namespaceName := solrCloud.namespaceName
    labels := labels
    annotations := annotations
    selector := selectorLabels
    portName := SolrClientPortName
    port := solrCloud.nodePort
    clusterIP := none
    publishNotReadyAddresses := true }

/-! ## Ingress (`GenerateIngress`, `CreateSolrIngressRules`) -/

/-- An ingress rule, projected onto its host and its single backend
(`PathTypeImplementationSpecific` path). -/
structure IngressRule where
  host : String
  backendServiceName : String
  backendPortNumber : Nat
deriving DecidableEq

structure IngressTLS where
  secretName : String
  hosts : List String
deriving DecidableEq

structure IngressModel where
  name : String
  namespaceName : String
  labels : LabelMap
  annotations : LabelMap
  rules : List IngressRule
  tls : List IngressTLS

/-- `CreateCommonIngressRule`: the whole-cluster rule for one domain. -/
def CreateCommonIngressRule (solrCloud : SolrCloud) (domainName : String) : IngressRule :=
  { host := solrCloud.externalCommonUrl domainName
    backendServiceName := solrCloud.commonServiceName
    backendPortNumber := solrCloud.spec.solrAddressability.commonServicePort }

/-- `CreateNodeIngressRule`: the per-pod rule for one node and one domain. -/
def CreateNodeIngressRule (solrCloud : SolrCloud) (nodeName domainName : String) : IngressRule :=
  { host := solrCloud.externalNodeUrl nodeName domainName
    backendServiceName := nodeName
    backendPortNumber := solrCloud.nodePort }

/-- `CreateSolrIngressRules`, with the two Go loops as folds appending one rule
and one host per iteration.  The Go code dereferences
`Spec.SolrAddressability.External` unconditionally (callers guarantee its
presence); the `getD` default stands for that obligation. -/
def CreateSolrIngressRules (solrCloud : SolrCloud) (nodeNames : List String)
    (domainNames : List String) : List IngressRule × List String :=
  let ext := solrCloud.spec.solrAddressability.external.getD ⟨"", false, false, "", [], ""⟩
  let acc : List IngressRule × List String := ([], [])
  let acc :=
    if !ext.hideCommon then
      domainNames.foldl
        (fun (acc : List IngressRule × List String) d =>
          (acc.1 ++ [CreateCommonIngressRule solrCloud d],
           acc.2 ++ [(CreateCommonIngressRule solrCloud d).host]))
        acc
    else acc
  let acc :=
    if !ext.hideNodes then
      nodeNames.foldl
        (fun (acc : List IngressRule × List String) n =>
          domainNames.foldl
            (fun (acc' : List IngressRule × List String) d =>
              (acc'.1 ++ [CreateNodeIngressRule solrCloud n d],
               acc'.2 ++ [(CreateNodeIngressRule solrCloud n d).host]))
            acc)
        acc
    else acc
  acc

def GenerateIngress (solrCloud : SolrCloud) (nodeNames : List String) : IngressModel :=
  let labels := SharedLabelsWith solrCloud.name solrCloud.metaLabels
  let annotations : LabelMap := LabelMap.empty
  let customOptions := solrCloud.spec.customSolrKubeOptions.ingressOptions
  let (labels, annotations) : LabelMap × LabelMap := match customOptions with
    | some o =>
      (MergeLabelsOrAnnotations labels o.labels, MergeLabelsOrAnnotations annotations o.annotations)
    | none => (labels, annotations)
  let extOpts := solrCloud.spec.solrAddressability.external.getD ⟨"", false, false, "", [], ""⟩
  let allDomains := extOpts.domainName :: extOpts.additionalDomainNames
  let (rules, allHosts) := CreateSolrIngressRules solrCloud nodeNames allDomains
  let ingressTLS : List IngressTLS :=
    match solrCloud.spec.solrTLS with
    | some t =>
      match t.pkcs12Secret with
      | some s => [⟨s, []⟩]
      | none => []
    | none => []
  let ingressTLS :=
    if extOpts.ingressTLSTerminationSecret ≠ "" then
      ingressTLS ++ [⟨extOpts.ingressTLSTerminationSecret, allHosts⟩]
    else ingressTLS
  let solrNodesRequireTLS := solrCloud.spec.solrTLS.isSome
  let ingressFrontedByTLS := ingressTLS.length > 0
  let annotations :=
    if solrNodesRequireTLS then
      if (annotations "nginx.ingress.kubernetes.io/backend-protocol").isNone then
        annotations.set "nginx.ingress.kubernetes.io/backend-protocol" "HTTPS"
      else annotations
    else
      if (annotations "nginx.ingress.kubernetes.io/backend-protocol").isNone then
        annotations.set "nginx.ingress.kubernetes.io/backend-protocol" "HTTP"
      else annotations
  let annotations :=
    if ingressFrontedByTLS then
      if (annotations "nginx.ingress.kubernetes.io/ssl-redirect").isNone then
        annotations.set "nginx.ingress.kubernetes.io/ssl-redirect" "true"
      else annotations
    else annotations
  { name := solrCloud.commonIngressName
    namespaceName := solrCloud.namespaceName
    labels := labels
    annotations := annotations
    rules := rules
    tls := ingressTLS }

/-! ## Generic helper lemmas -/

theorem getD_mem {α : Type} : ∀ (l : List α) (i : Nat) (d : α), i < l.length → l.getD i d ∈ l
  | a :: _, 0, _, _ => by simp
  | a :: t, i + 1, d, h => by
    rw [List.getD_cons_succ]
    exact List.mem_cons_of_mem a (getD_mem t i d (by simpa using h))

/-! ## Claim theorems -/

/-- **C1**: for every password byte string, the credential string produced by
`solrPasswordHash` equals `base64(H(H(salt ++ password)))`, a single space, and
`base64(salt)`, where `salt = H(randBytes)` is the hash of the 32 freshly
randomized bytes; equivalently, base64-decoding the second field recovers the
salt, and an independent recomputation of `base64(H(H(salt ++ password)))`
equals the first field. -/
theorem C1_solrPasswordHash_correct (H : List Nat → List Nat) (randBytes passBytes : List Nat)
    (hH : ∀ l b, b ∈ H l → b < 256) (hlen : randBytes.length = 32) :
    solrPasswordHash H randBytes passBytes
        = base64Encode (H (H (randomSaltHash H randBytes ++ passBytes))) ++ " "
            ++ base64Encode (randomSaltHash H randBytes)
      ∧ ∃ f₁ f₂, solrPasswordHash H randBytes passBytes = f₁ ++ " " ++ f₂
          ∧ base64Decode f₂ = randomSaltHash H randBytes
          ∧ f₁ = base64Encode (H (H (base64Decode f₂ ++ passBytes))) := by
  refine ⟨rfl, base64Encode (H (H (randomSaltHash H randBytes ++ passBytes))),
    base64Encode (randomSaltHash H randBytes), rfl, ?_, ?_⟩
  · exact base64_roundtrip _ (fun b hb => hH randBytes b hb)
  · rw [base64_roundtrip (randomSaltHash H randBytes) (fun b hb => hH randBytes b hb)]

/-- Witness for C1 at a concrete hash function, salt randomness and password. -/
theorem C1_solrPasswordHash_correct_witness :
    (∀ l b, b ∈ (fun t : List Nat => [t.length % 256]) l → b < 256)
      ∧ (List.replicate 32 0).length = 32
      ∧ (solrPasswordHash (fun t => [t.length % 256]) (List.replicate 32 0) [1, 2]
            = base64Encode ((fun t : List Nat => [t.length % 256])
                ((fun t : List Nat => [t.length % 256])
                  (randomSaltHash (fun t => [t.length % 256]) (List.replicate 32 0) ++ [1, 2])))
              ++ " " ++ base64Encode (randomSaltHash (fun t => [t.length % 256]) (List.replicate 32 0))
          ∧ ∃ f₁ f₂, solrPasswordHash (fun t => [t.length % 256]) (List.replicate 32 0) [1, 2]
              = f₁ ++ " " ++ f₂
              ∧ base64Decode f₂ = randomSaltHash (fun t => [t.length % 256]) (List.replicate 32 0)
              ∧ f₁ = base64Encode ((fun t : List Nat => [t.length % 256])
                  ((fun t : List Nat => [t.length % 256]) (base64Decode f₂ ++ [1, 2])))) :=
  ⟨fun l b hb => by simp at hb; omega,
   by simp,
   C1_solrPasswordHash_correct (fun t => [t.length % 256]) (List.replicate 32 0) [1, 2]
     (fun l b hb => by simp at hb; omega) (by simp)⟩

/-- **C7**: every password produced by `randomPassword` has exactly 16
characters; the first is a lowercase letter from the `lower` alphabet, the
last an uppercase letter from the `upper` alphabet, and each of the 14
interior characters comes from the fixed alphabet `chars`, indexed through the
freshly drawn permutation of that alphabet. -/
theorem C7_randomPassword_spec (i0 iLast : Nat) (perm : List Nat)
    (h0 : i0 < 25) (hLast : iLast < 25) (hperm : perm.Perm (List.range 76)) :
    (randomPassword i0 iLast perm).length = 16
      ∧ (∀ c, (randomPassword i0 iLast perm).head? = some c → c ∈ passwordLower.toList)
      ∧ (∀ c, (randomPassword i0 iLast perm).getLast? = some c → c ∈ passwordUpper.toList)
      ∧ (∀ c ∈ ((randomPassword i0 iLast perm).drop 1).dropLast, c ∈ passwordChars.toList) := by
  have hlow : passwordLower.toList.length = 25 := by decide
  have hup : passwordUpper.toList.length = 25 := by decide
  have hchars : passwordChars.toList.length = 76 := by decide
  refine ⟨?_, ?_, ?_, ?_⟩
  · simp [randomPassword]
  · intro c hc
    rw [randomPassword, List.head?_cons] at hc
    cases hc
    exact getD_mem _ _ _ (by rw [hlow]; exact h0)
  · intro c hc
    have hshape : randomPassword i0 iLast perm
        = (passwordLower.toList.getD i0 'a'
            :: (List.range' 1 14).map (fun i => passwordChars.toList.getD (perm.getD i 0) '0'))
          ++ [passwordUpper.toList.getD iLast 'A'] := by
      simp [randomPassword]
    rw [hshape, List.getLast?_concat] at hc
    cases hc
    exact getD_mem _ _ _ (by rw [hup]; exact hLast)
  · intro c hc
    have hshape : ((randomPassword i0 iLast perm).drop 1).dropLast
        = (List.range' 1 14).map (fun i => passwordChars.toList.getD (perm.getD i 0) '0') := by
      rw [randomPassword, List.drop_one, List.tail_cons, List.dropLast_concat]
    rw [hshape] at hc
    obtain ⟨i, hi, rfl⟩ := List.mem_map.mp hc
    have hi' : 1 ≤ i ∧ i < 15 := List.mem_range'_1.mp hi
    have hplen : perm.length = 76 := by rw [hperm.length_eq, List.length_range]
    have hmem : perm.getD i 0 ∈ perm := getD_mem _ _ _ (by omega)
    have hlt : perm.getD i 0 < 76 := List.mem_range.mp (hperm.mem_iff.mp hmem)
    exact getD_mem _ _ _ (by rw [hchars]; exact hlt)

/-- Witness for C7 at concrete random draws. -/
theorem C7_randomPassword_spec_witness :
    (0 < 25) ∧ (3 < 25) ∧ (List.range 76).Perm (List.range 76)
      ∧ ((randomPassword 0 3 (List.range 76)).length = 16
          ∧ (∀ c, (randomPassword 0 3 (List.range 76)).head? = some c → c ∈ passwordLower.toList)
          ∧ (∀ c, (randomPassword 0 3 (List.range 76)).getLast? = some c → c ∈ passwordUpper.toList)
          ∧ (∀ c ∈ ((randomPassword 0 3 (List.range 76)).drop 1).dropLast,
              c ∈ passwordChars.toList)) :=
  ⟨by decide, by decide, List.Perm.refl _,
   C7_randomPassword_spec 0 3 (List.range 76) (by decide) (by decide) (List.Perm.refl _)⟩

/-- **C8**: `ValidateBasicAuthSecret` returns an error exactly when the secret
type is not the basic-auth type or the username or password key is missing
from the data; otherwise it returns success (and, being a pure function of the
secret, never modifies it). -/
theorem C8_ValidateBasicAuthSecret_spec (s : Secret) :
    ((∃ msg, ValidateBasicAuthSecret s = Except.error msg)
        ↔ (s.secretType ≠ SecretTypeBasicAuth
            ∨ s.data.lookup BasicAuthUsernameKey = none
            ∨ s.data.lookup BasicAuthPasswordKey = none))
      ∧ (ValidateBasicAuthSecret s = Except.ok ()
        ↔ (s.secretType = SecretTypeBasicAuth
            ∧ s.data.lookup BasicAuthUsernameKey ≠ none
            ∧ s.data.lookup BasicAuthPasswordKey ≠ none)) := by
  unfold ValidateBasicAuthSecret
  split_ifs with h1 h2 h3
  · exact ⟨⟨(fun _ => Or.inl h1), (fun _ => ⟨_, rfl⟩)⟩,
      ⟨(fun h => by cases h), (fun h => absurd h.1 h1)⟩⟩
  · have h2' : s.data.lookup BasicAuthUsernameKey = none := Option.isNone_iff_eq_none.mp h2
    exact ⟨⟨(fun _ => Or.inr (Or.inl h2')), (fun _ => ⟨_, rfl⟩)⟩,
      ⟨(fun h => by cases h), (fun h => absurd h2' h.2.1)⟩⟩
  · have h3' : s.data.lookup BasicAuthPasswordKey = none := Option.isNone_iff_eq_none.mp h3
    exact ⟨⟨(fun _ => Or.inr (Or.inr h3')), (fun _ => ⟨_, rfl⟩)⟩,
      ⟨(fun h => by cases h), (fun h => absurd h3' h.2.2)⟩⟩
  · have h1' : s.secretType = SecretTypeBasicAuth := not_ne_iff.mp h1
    have h2' : s.data.lookup BasicAuthUsernameKey ≠ none :=
      fun hn => h2 (Option.isNone_iff_eq_none.mpr hn)
    have h3' : s.data.lookup BasicAuthPasswordKey ≠ none :=
      fun hn => h3 (Option.isNone_iff_eq_none.mpr hn)
    refine ⟨⟨(fun h => by obtain ⟨msg, hmsg⟩ := h; cases hmsg), (fun hor => ?_)⟩,
      ⟨(fun _ => ⟨h1', h2', h3'⟩), (fun _ => rfl)⟩⟩
    rcases hor with h | h | h
    · exact absurd h1' h
    · exact absurd h h2'
    · exact absurd h h3'

/-- Permutation invariance of the aggregated backup-repository fragment
(shared by the backup-determinism and whole-engine determinism results). -/
theorem backupReposXml_perm
    (repos₁ repos₂ : List SolrBackupRepository) (h : repos₁.Perm repos₂) :
    GenerateBackupRepositoriesForSolrXml repos₁ = GenerateBackupRepositoriesForSolrXml repos₂ := by
  have hlen := h.length_eq
  have hxml : (repos₁.map RepoXML).mergeSort strLe = (repos₂.map RepoXML).mergeSort strLe :=
    mergeSort_strLe_eq_of_perm (h.map RepoXML)
  have hflat : (repos₁.flatMap AdditionalRepoLibs).Perm (repos₂.flatMap AdditionalRepoLibs) :=
    List.Perm.flatMap_right AdditionalRepoLibs h
  have hdedup := hflat.dedup
  have hlib : (repos₁.flatMap AdditionalRepoLibs).dedup.mergeSort strLe
      = (repos₂.flatMap AdditionalRepoLibs).dedup.mergeSort strLe :=
    mergeSort_strLe_eq_of_perm hdedup
  have hliblen := hdedup.length_eq
  simp only [GenerateBackupRepositoriesForSolrXml]
  rw [hlen, foldl_flat_append, foldl_flat_append, List.nil_append, List.nil_append,
    hxml, hlib, hliblen]

/-- **C4**: `GenerateBackupRepositoriesForSolrXml` is invariant under
permutation of the repository list: shared libraries are deduplicated and
sorted, fragments are sorted, so declaration order (and map iteration order)
never shows in the output. -/
theorem C4_GenerateBackupRepositoriesForSolrXml_perm
    (repos₁ repos₂ : List SolrBackupRepository) (h : repos₁.Perm repos₂) :
    GenerateBackupRepositoriesForSolrXml repos₁ = GenerateBackupRepositoriesForSolrXml repos₂ :=
  backupReposXml_perm repos₁ repos₂ h

/-- Witness for C4: two concrete repositories declared in reverse order yield
the identical aggregated configuration output. -/
theorem C4_GenerateBackupRepositoriesForSolrXml_perm_witness :
    ([(⟨"s3", ["solr-s3-repository", "aws-core"], "<repository name=\"s3\"/>", false, none, ""⟩ :
        SolrBackupRepository),
      ⟨"gcs", ["solr-gcs-repository", "aws-core"], "<repository name=\"gcs\"/>", false, none, ""⟩].Perm
      [⟨"gcs", ["solr-gcs-repository", "aws-core"], "<repository name=\"gcs\"/>", false, none, ""⟩,
       ⟨"s3", ["solr-s3-repository", "aws-core"], "<repository name=\"s3\"/>", false, none, ""⟩])
    ∧ GenerateBackupRepositoriesForSolrXml
        [⟨"s3", ["solr-s3-repository", "aws-core"], "<repository name=\"s3\"/>", false, none, ""⟩,
         ⟨"gcs", ["solr-gcs-repository", "aws-core"], "<repository name=\"gcs\"/>", false, none, ""⟩]
      = GenerateBackupRepositoriesForSolrXml
        [⟨"gcs", ["solr-gcs-repository", "aws-core"], "<repository name=\"gcs\"/>", false, none, ""⟩,
         ⟨"s3", ["solr-s3-repository", "aws-core"], "<repository name=\"s3\"/>", false, none, ""⟩] :=
  ⟨List.Perm.swap _ _ _,
   C4_GenerateBackupRepositoriesForSolrXml_perm _ _ (List.Perm.swap _ _ _)⟩

/-! ### C2: ingress rule counting -/

theorem commonRules_foldl (sc : SolrCloud) (domains : List String)
    (acc : List IngressRule × List String) :
    domains.foldl
        (fun (acc : List IngressRule × List String) d =>
          (acc.1 ++ [CreateCommonIngressRule sc d], acc.2 ++ [(CreateCommonIngressRule sc d).host]))
        acc
      = (acc.1 ++ domains.map (CreateCommonIngressRule sc),
         acc.2 ++ domains.map (fun d => (CreateCommonIngressRule sc d).host)) := by
  induction domains generalizing acc with
  | nil => simp
  | cons d t ih => simp [ih]

theorem nodeDomainRules_foldl (sc : SolrCloud) (n : String) (domains : List String)
    (acc : List IngressRule × List String) :
    domains.foldl
        (fun (acc' : List IngressRule × List String) d =>
          (acc'.1 ++ [CreateNodeIngressRule sc n d],
           acc'.2 ++ [(CreateNodeIngressRule sc n d).host]))
        acc
      = (acc.1 ++ domains.map (CreateNodeIngressRule sc n),
         acc.2 ++ domains.map (fun d => (CreateNodeIngressRule sc n d).host)) := by
  induction domains generalizing acc with
  | nil => simp
  | cons d t ih => simp [ih]

theorem nodeRules_foldl (sc : SolrCloud) (nodes domains : List String)
    (acc : List IngressRule × List String) :
    nodes.foldl
        (fun (acc : List IngressRule × List String) n =>
          domains.foldl
            (fun (acc' : List IngressRule × List String) d =>
              (acc'.1 ++ [CreateNodeIngressRule sc n d],
               acc'.2 ++ [(CreateNodeIngressRule sc n d).host]))
            acc)
        acc
      = (acc.1 ++ nodes.flatMap (fun n => domains.map (CreateNodeIngressRule sc n)),
         acc.2 ++ nodes.flatMap (fun n => domains.map (fun d => (CreateNodeIngressRule sc n d).host))) := by
  induction nodes generalizing acc with
  | nil => simp
  | cons n t ih =>
    simp only [List.foldl_cons]
    rw [nodeDomainRules_foldl, ih]
    simp

theorem length_flatMap_map_const {α β γ : Type} (l : List α) (g : List β) (f : α → β → γ) :
    (l.flatMap (fun n => g.map (f n))).length = g.length * l.length := by
  induction l with
  | nil => simp
  | cons x t ih => simp [ih, Nat.mul_succ]; ring

/-- Full evaluation of `CreateSolrIngressRules` in terms of the hide flags. -/
theorem CreateSolrIngressRules_eval (solrCloud : SolrCloud) (nodeNames domainNames : List String)
    (ext : ExternalAddressability)
    (hext : solrCloud.spec.solrAddressability.external = some ext) :
    CreateSolrIngressRules solrCloud nodeNames domainNames
      = ((if ext.hideCommon then [] else domainNames.map (CreateCommonIngressRule solrCloud))
            ++ (if ext.hideNodes then []
                else nodeNames.flatMap (fun n => domainNames.map (CreateNodeIngressRule solrCloud n))),
         (if ext.hideCommon then []
            else domainNames.map (fun d => (CreateCommonIngressRule solrCloud d).host))
            ++ (if ext.hideNodes then []
                else nodeNames.flatMap
                  (fun n => domainNames.map (fun d => (CreateNodeIngressRule solrCloud n d).host)))) := by
  unfold CreateSolrIngressRules
  rw [hext]
  cases hc : ext.hideCommon <;> cases hn : ext.hideNodes <;>
    simp [hc, hn, commonRules_foldl, nodeRules_foldl]

/-- **C2**: with external addressability and neither side hidden,
`CreateSolrIngressRules` produces first one common rule per domain and then
one rule per (pod, domain) pair — exactly `N + N·M` rules; hiding the common
side drops the `N` common rules, hiding the node side drops the `N·M` per-pod
rules; common hosts come from the cluster's common external URL and per-pod
hosts from the node's external URL for the domain. -/
theorem C2_CreateSolrIngressRules_spec (solrCloud : SolrCloud) (nodeNames domainNames : List String)
    (ext : ExternalAddressability)
    (hext : solrCloud.spec.solrAddressability.external = some ext) :
    (ext.hideCommon = false → ext.hideNodes = false →
        (CreateSolrIngressRules solrCloud nodeNames domainNames).1
            = domainNames.map (CreateCommonIngressRule solrCloud)
              ++ nodeNames.flatMap (fun n => domainNames.map (CreateNodeIngressRule solrCloud n))
          ∧ (CreateSolrIngressRules solrCloud nodeNames domainNames).1.length
            = domainNames.length + domainNames.length * nodeNames.length)
      ∧ (ext.hideCommon = true →
          (CreateSolrIngressRules solrCloud nodeNames domainNames).1
            = if ext.hideNodes then []
              else nodeNames.flatMap (fun n => domainNames.map (CreateNodeIngressRule solrCloud n)))
      ∧ (ext.hideNodes = true →
          (CreateSolrIngressRules solrCloud nodeNames domainNames).1
            = if ext.hideCommon then []
              else domainNames.map (CreateCommonIngressRule solrCloud))
      ∧ (∀ d, (CreateCommonIngressRule solrCloud d).host = solrCloud.externalCommonUrl d)
      ∧ (∀ n d, (CreateNodeIngressRule solrCloud n d).host = solrCloud.externalNodeUrl n d) := by
  have heval := CreateSolrIngressRules_eval solrCloud nodeNames domainNames ext hext
  refine ⟨?_, ?_, ?_, (fun d => rfl), (fun n d => rfl)⟩
  · intro hc hn
    rw [heval, hc, hn]
    constructor
    · simp
    · simp only [if_neg (by simp : ¬(false = true))]
      rw [List.length_append, List.length_map, length_flatMap_map_const]
  · intro hc
    rw [heval, hc]
    cases ext.hideNodes <;> simp
  · intro hn
    rw [heval, hn]
    cases ext.hideCommon <;> simp

def sampleExtC2 : ExternalAddressability :=
  ⟨"Ingress", false, false, "example.com", ["alt.example.org"], ""⟩

def sampleCloudC2 : SolrCloud :=
  { name := "search"
    namespaceName := "ns"
    metaLabels := LabelMap.empty
    spec :=
      { replicas := some 3
        solrAddressability :=
          { podPort := 8983, commonServicePort := 80, external := some sampleExtC2 }
        solrSecurity := none
        solrTLS := none
        storageOptions := { persistentStorage := none, ephemeralStorage := none }
        customSolrKubeOptions := {}
        backupRepositories := []
        updateStrategy := ⟨""⟩ }
    externalCommonUrl := fun d => "search." ++ d
    externalNodeUrl := fun n d => n ++ "." ++ d
    externalDnsDomain := fun d => "search.ns." ++ d }

/-- Witness for C2: one pod, two domains, nothing hidden. -/
theorem C2_CreateSolrIngressRules_spec_witness :
    sampleCloudC2.spec.solrAddressability.external = some sampleExtC2
      ∧ ((sampleExtC2.hideCommon = false → sampleExtC2.hideNodes = false →
            (CreateSolrIngressRules sampleCloudC2 ["search-solrcloud-0"]
                ["example.com", "alt.example.org"]).1
                = ["example.com", "alt.example.org"].map (CreateCommonIngressRule sampleCloudC2)
                  ++ ["search-solrcloud-0"].flatMap
                    (fun n => ["example.com", "alt.example.org"].map
                      (CreateNodeIngressRule sampleCloudC2 n))
              ∧ (CreateSolrIngressRules sampleCloudC2 ["search-solrcloud-0"]
                  ["example.com", "alt.example.org"]).1.length
                = (["example.com", "alt.example.org"] : List String).length
                  + (["example.com", "alt.example.org"] : List String).length
                    * (["search-solrcloud-0"] : List String).length)
          ∧ (sampleExtC2.hideCommon = true →
              (CreateSolrIngressRules sampleCloudC2 ["search-solrcloud-0"]
                  ["example.com", "alt.example.org"]).1
                = if sampleExtC2.hideNodes then []
                  else ["search-solrcloud-0"].flatMap
                    (fun n => ["example.com", "alt.example.org"].map
                      (CreateNodeIngressRule sampleCloudC2 n)))
          ∧ (sampleExtC2.hideNodes = true →
              (CreateSolrIngressRules sampleCloudC2 ["search-solrcloud-0"]
                  ["example.com", "alt.example.org"]).1
                = if sampleExtC2.hideCommon then []
                  else ["example.com", "alt.example.org"].map
                    (CreateCommonIngressRule sampleCloudC2))
          ∧ (∀ d, (CreateCommonIngressRule sampleCloudC2 d).host
              = sampleCloudC2.externalCommonUrl d)
          ∧ (∀ n d, (CreateNodeIngressRule sampleCloudC2 n d).host
              = sampleCloudC2.externalNodeUrl n d)) :=
  ⟨rfl, C2_CreateSolrIngressRules_spec sampleCloudC2 ["search-solrcloud-0"]
    ["example.com", "alt.example.org"] sampleExtC2 rfl⟩

/-! ### C6: ephemeral data volume -/

/-- The data volume of a generated StatefulSet: the first volume named
`"data"`. -/
def dataVolume (ss : StatefulSetModel) : Option Volume :=
  ss.volumes.find? (fun v => v.name == "data")

/-- The volumes the backup-repository loop appends. -/
def repoVolumesList (repos : List SolrBackupRepository) : List Volume :=
  repos.flatMap fun r =>
    match (RepoVolumeSourceAndMount r).1 with
    | some vs => [⟨RepoVolumeName r, vs⟩]
    | none => []

theorem addRepoVolumes_fst (repos : List SolrBackupRepository) :
    ∀ acc : List Volume × List VolumeMount,
      (addRepoVolumes repos acc).1 = acc.1 ++ repoVolumesList repos := by
  induction repos with
  | nil => intro acc; simp [addRepoVolumes, repoVolumesList]
  | cons r t ih =>
    intro acc
    simp only [addRepoVolumes, List.foldl_cons] at *
    cases hv : (RepoVolumeSourceAndMount r).1 with
    | some vs =>
      rw [ih]
      simp [repoVolumesList, hv]
    | none =>
      rw [ih]
      simp [repoVolumesList, hv]

/-- The volumes the custom-volume loop appends. -/
def customVolumesList (customPodOptions : Option PodOptions) : List Volume :=
  match customPodOptions with
  | some o => o.volumes.map (fun v => ⟨v.name, v.source⟩)
  | none => []

theorem customVolumes_foldl_fst (l : List CustomVolume) :
    ∀ acc : List Volume × List VolumeMount,
      (l.foldl
        (fun (acc : List Volume × List VolumeMount) (v : CustomVolume) =>
          let mounts := match v.defaultContainerMount with
            | some m => acc.2 ++ [⟨v.name, m.mountPath⟩]
            | none => acc.2
          (acc.1 ++ [⟨v.name, v.source⟩], mounts))
        acc).1 = acc.1 ++ l.map (fun v => ⟨v.name, v.source⟩) := by
  induction l with
  | nil => intro acc; simp
  | cons v t ih =>
    intro acc
    simp only [List.foldl_cons]
    rw [ih]
    simp

theorem addCustomVolumes_fst (customPodOptions : Option PodOptions)
    (acc : List Volume × List VolumeMount) :
    (addCustomVolumes customPodOptions acc).1 = acc.1 ++ customVolumesList customPodOptions := by
  cases customPodOptions with
  | none => simp [addCustomVolumes, customVolumesList]
  | some o => simp [addCustomVolumes, customVolumesList, customVolumes_foldl_fst]

/-- The extra volume the secure-probe block appends (empty when probes are not
replaced or need no secret volume). -/
def secureProbeVolumesList (solrCloud : SolrCloud) (tls : Option TLSCerts) : List Volume :=
  if secureProbeNeeded solrCloud tls = true then
    match (configureSecureProbeCommand solrCloud ("/solr" ++ DefaultProbePath)
        solrCloud.spec.solrAddressability.podPort).2.1 with
    | some v => [v]
    | none => []
  else []

/-- Full characterization of the generated volume list: the solr.xml volume,
the data volume in ephemeral mode, then the repository, custom and
secure-probe volumes in order. -/
theorem generateSSVolumes_fst (solrCloud : SolrCloud)
    (reconcileConfigInfo : String → String) (tls : Option TLSCerts) :
    (generateSSVolumesAndMounts solrCloud reconcileConfigInfo tls).1
      = (match solrCloud.spec.storageOptions.persistentStorage with
         | some _ => [⟨"solr-xml", { configMapName := some (reconcileConfigInfo SolrXmlFile) }⟩]
         | none => [⟨"solr-xml", { configMapName := some (reconcileConfigInfo SolrXmlFile) }⟩,
                    ⟨"data", ephemeralDataVolumeSource solrCloud.spec.storageOptions.ephemeralStorage⟩])
        ++ repoVolumesList solrCloud.spec.backupRepositories
        ++ customVolumesList solrCloud.spec.customSolrKubeOptions.podOptions
        ++ secureProbeVolumesList solrCloud tls := by
  unfold generateSSVolumesAndMounts secureProbeVolumesList
  cases hps : solrCloud.spec.storageOptions.persistentStorage <;>
  by_cases hs : secureProbeNeeded solrCloud tls = true <;>
  simp [hps, hs, addRepoVolumes_fst, addCustomVolumes_fst, List.append_assoc] <;>
  cases hvol : (configureSecureProbeCommand solrCloud ("/solr" ++ DefaultProbePath)
      solrCloud.spec.solrAddressability.podPort).2.1 <;>
  simp [hvol, addRepoVolumes_fst, addCustomVolumes_fst, List.append_assoc]

/-- **C6 (amended)**: in ephemeral mode the data volume uses the host-path
source exactly when an explicit host-path source is given — even when an
empty-directory source is also given, the host-path wins; otherwise it uses
the explicitly configured empty-directory source (with its size limit), and
when neither is configured it defaults to an unconstrained empty-directory
volume. -/
theorem C6_ephemeral_dataVolume (solrCloud : SolrCloud) (solrCloudStatus : SolrCloudStatus)
    (hostNameIPs : List (String × String)) (reconcileConfigInfo : String → String)
    (tls : Option TLSCerts)
    (heph : solrCloud.spec.storageOptions.persistentStorage = none) :
    dataVolume (GenerateStatefulSet solrCloud solrCloudStatus hostNameIPs reconcileConfigInfo tls)
        = some ⟨"data", ephemeralDataVolumeSource solrCloud.spec.storageOptions.ephemeralStorage⟩
      ∧ (∀ es hp, solrCloud.spec.storageOptions.ephemeralStorage = some es →
          es.hostPath = some hp →
          ephemeralDataVolumeSource solrCloud.spec.storageOptions.ephemeralStorage
            = { hostPath := some hp })
      ∧ (∀ es ed, solrCloud.spec.storageOptions.ephemeralStorage = some es →
          es.hostPath = none → es.emptyDir = some ed →
          ephemeralDataVolumeSource solrCloud.spec.storageOptions.ephemeralStorage
            = { emptyDir := some ed })
      ∧ (∀ es, solrCloud.spec.storageOptions.ephemeralStorage = some es →
          es.hostPath = none → es.emptyDir = none →
          ephemeralDataVolumeSource solrCloud.spec.storageOptions.ephemeralStorage
            = { emptyDir := some ⟨none⟩ })
      ∧ (solrCloud.spec.storageOptions.ephemeralStorage = none →
          ephemeralDataVolumeSource solrCloud.spec.storageOptions.ephemeralStorage
            = { emptyDir := some ⟨none⟩ }) := by
  refine ⟨?_, ?_, ?_, ?_, ?_⟩
  · have hv : (GenerateStatefulSet solrCloud solrCloudStatus hostNameIPs reconcileConfigInfo
        tls).volumes = (generateSSVolumesAndMounts solrCloud reconcileConfigInfo tls).1 := rfl
    unfold dataVolume
    rw [hv, generateSSVolumes_fst, heph]
    simp [List.find?]
  · intro es hp hes hhp
    rw [hes]
    simp [ephemeralDataVolumeSource, hhp]
  · intro es ed hes hhp hed
    rw [hes]
    simp [ephemeralDataVolumeSource, hhp, hed]
  · intro es hes hhp hed
    rw [hes]
    simp [ephemeralDataVolumeSource, hhp, hed]
  · intro hes
    rw [hes]
    simp [ephemeralDataVolumeSource]

/-- A SolrCloud configuring ephemeral storage with BOTH a host-path and an
empty-dir source. -/
def cexCloudC6 : SolrCloud :=
  { name := "c6"
    namespaceName := "ns"
    metaLabels := LabelMap.empty
    spec :=
      { replicas := some 1
        solrAddressability := { podPort := 8983, commonServicePort := 80, external := none }
        solrSecurity := none
        solrTLS := none
        storageOptions :=
          { persistentStorage := none
            ephemeralStorage := some ⟨some ⟨"/mnt/solr-data"⟩, some ⟨some "1Gi"⟩⟩ }
        customSolrKubeOptions := {}
        backupRepositories := []
        updateStrategy := ⟨""⟩ }
    externalCommonUrl := fun d => d
    externalNodeUrl := fun n d => n ++ "." ++ d
    externalDnsDomain := fun d => d }

/-- Counterexample to C6 as stated: when both a host-path and an empty-dir
source are given, the code uses the host-path source, while the claim requires
the empty-dir source ("host-path exactly when ... no empty-directory source is
given"). -/
theorem C6_counterexample :
    cexCloudC6.spec.storageOptions.ephemeralStorage
        = some ⟨some ⟨"/mnt/solr-data"⟩, some ⟨some "1Gi"⟩⟩
      ∧ dataVolume (GenerateStatefulSet cexCloudC6 ⟨"zk:2181"⟩ [] (fun _ => "") none)
        = some ⟨"data", { hostPath := some ⟨"/mnt/solr-data"⟩ }⟩
      ∧ dataVolume (GenerateStatefulSet cexCloudC6 ⟨"zk:2181"⟩ [] (fun _ => "") none)
        ≠ some ⟨"data", { emptyDir := some ⟨some "1Gi"⟩ }⟩ :=
  ⟨rfl, by decide, by decide⟩

/-- Witness for (amended) C6 at the concrete both-sources cloud. -/
theorem C6_ephemeral_dataVolume_witness :
    cexCloudC6.spec.storageOptions.persistentStorage = none
      ∧ (dataVolume (GenerateStatefulSet cexCloudC6 ⟨"zk:2181"⟩ [] (fun _ => "") none)
            = some ⟨"data", ephemeralDataVolumeSource cexCloudC6.spec.storageOptions.ephemeralStorage⟩
          ∧ (∀ es hp, cexCloudC6.spec.storageOptions.ephemeralStorage = some es →
              es.hostPath = some hp →
              ephemeralDataVolumeSource cexCloudC6.spec.storageOptions.ephemeralStorage
                = { hostPath := some hp })
          ∧ (∀ es ed, cexCloudC6.spec.storageOptions.ephemeralStorage = some es →
              es.hostPath = none → es.emptyDir = some ed →
              ephemeralDataVolumeSource cexCloudC6.spec.storageOptions.ephemeralStorage
                = { emptyDir := some ed })
          ∧ (∀ es, cexCloudC6.spec.storageOptions.ephemeralStorage = some es →
              es.hostPath = none → es.emptyDir = none →
              ephemeralDataVolumeSource cexCloudC6.spec.storageOptions.ephemeralStorage
                = { emptyDir := some ⟨none⟩ })
          ∧ (cexCloudC6.spec.storageOptions.ephemeralStorage = none →
              ephemeralDataVolumeSource cexCloudC6.spec.storageOptions.ephemeralStorage
                = { emptyDir := some ⟨none⟩ })) :=
  ⟨rfl, C6_ephemeral_dataVolume cexCloudC6 ⟨"zk:2181"⟩ [] (fun _ => "") none rfl⟩

/-- **C9 (amended)**: when no custom pod lifecycle override is supplied, the
solr container has a postStart hook exactly when the chroot derived from the
coordination-service connection string is longer than the single-character
root `/`; the hook is the idempotent check-then-create command
`solr zk ls ... || solr zk mkroot ...`; with a trivial chroot no postStart
hook is set. -/
theorem C9_postStart_chroot (solrCloud : SolrCloud) (solrCloudStatus : SolrCloudStatus)
    (hostNameIPs : List (String × String)) (reconcileConfigInfo : String → String)
    (tls : Option TLSCerts)
    (hnolc : ∀ o, solrCloud.spec.customSolrKubeOptions.podOptions = some o → o.lifecycle = none) :
    (GenerateStatefulSet solrCloud solrCloudStatus hostNameIPs reconcileConfigInfo
        tls).lifecycle.postStart
      = if 1 < ((DissectZkInfo solrCloudStatus).2.2).length
        then some (Handler.exec ["sh", "-c",
          "solr zk ls ${ZK_CHROOT} -z ${ZK_SERVER} || solr zk mkroot ${ZK_CHROOT} -z ${ZK_SERVER}"])
        else none := by
  have hlc : (GenerateStatefulSet solrCloud solrCloudStatus hostNameIPs reconcileConfigInfo
      tls).lifecycle = generateSSLifecycle solrCloud solrCloudStatus := rfl
  rw [hlc]
  unfold generateSSLifecycle createZkConnectionEnvVars
  cases hpo : solrCloud.spec.customSolrKubeOptions.podOptions with
  | none =>
    by_cases h : 1 < ((DissectZkInfo solrCloudStatus).2.2).length <;> simp [h]
  | some o =>
    by_cases h : 1 < ((DissectZkInfo solrCloudStatus).2.2).length <;>
      simp [h, hnolc o hpo]

/-- A SolrCloud with a user lifecycle override that carries no postStart
hook. -/
def cexCloudC9 : SolrCloud :=
  { name := "c9"
    namespaceName := "ns"
    metaLabels := LabelMap.empty
    spec :=
      { replicas := some 1
        solrAddressability := { podPort := 8983, commonServicePort := 80, external := none }
        solrSecurity := none
        solrTLS := none
        storageOptions := { persistentStorage := none, ephemeralStorage := none }
        customSolrKubeOptions := { podOptions := some { lifecycle := some ⟨none, none⟩ } }
        backupRepositories := []
        updateStrategy := ⟨""⟩ }
    externalCommonUrl := fun d => d
    externalNodeUrl := fun n d => n ++ "." ++ d
    externalDnsDomain := fun d => d }

/-- Counterexample to C9 as stated ("for every SolrCloud"): with a non-trivial
chroot (`/solr`, length 5 > 1) but a user-supplied pod lifecycle override, the
generated container has no postStart hook — line 527 of the source replaces
the lifecycle wholesale. -/
theorem C9_counterexample :
    1 < ((DissectZkInfo ⟨"zk-host:2181/solr"⟩).2.2).length
      ∧ (GenerateStatefulSet cexCloudC9 ⟨"zk-host:2181/solr"⟩ [] (fun _ => "")
          none).lifecycle.postStart = none :=
  ⟨by decide, by decide⟩

/-- A SolrCloud with no custom pod options at all (for the C9 witness). -/
def plainCloudC9 : SolrCloud :=
  { name := "c9w"
    namespaceName := "ns"
    metaLabels := LabelMap.empty
    spec :=
      { replicas := some 1
        solrAddressability := { podPort := 8983, commonServicePort := 80, external := none }
        solrSecurity := none
        solrTLS := none
        storageOptions := { persistentStorage := none, ephemeralStorage := none }
        customSolrKubeOptions := {}
        backupRepositories := []
        updateStrategy := ⟨""⟩ }
    externalCommonUrl := fun d => d
    externalNodeUrl := fun n d => n ++ "." ++ d
    externalDnsDomain := fun d => d }

/-- Witness for (amended) C9: with no lifecycle override and chroot `/solr`,
the postStart hook is exactly the idempotent chroot-creation command. -/
theorem C9_postStart_chroot_witness :
    (∀ o, plainCloudC9.spec.customSolrKubeOptions.podOptions = some o → o.lifecycle = none)
      ∧ (GenerateStatefulSet plainCloudC9 ⟨"zk-host:2181/solr"⟩ [] (fun _ => "")
            none).lifecycle.postStart
        = if 1 < ((DissectZkInfo ⟨"zk-host:2181/solr"⟩).2.2).length
          then some (Handler.exec ["sh", "-c",
            "solr zk ls ${ZK_CHROOT} -z ${ZK_SERVER} || solr zk mkroot ${ZK_CHROOT} -z ${ZK_SERVER}"])
          else none :=
  ⟨(fun _ h => nomatch h),
   C9_postStart_chroot plainCloudC9 ⟨"zk-host:2181/solr"⟩ [] (fun _ => "") none
     (fun _ h => nomatch h)⟩

/-! ### C5: secure probe replacement -/

/-- The line-360 condition, spelled out as a proposition. -/
theorem secureProbeNeeded_eq_true_iff (solrCloud : SolrCloud) (tls : Option TLSCerts) :
    secureProbeNeeded solrCloud tls = true
      ↔ ((∃ t cfg, tls = some t ∧ t.serverConfig = some cfg
            ∧ cfg.options.clientAuth ≠ ClientAuthType.None)
          ∨ (∃ sec, solrCloud.spec.solrSecurity = some sec ∧ sec.probesRequireAuth = true)) := by
  unfold secureProbeNeeded
  rcases tls with _ | t
  · rcases hsec : solrCloud.spec.solrSecurity with _ | sec <;> simp [hsec]
  · rcases hcfg : t.serverConfig with _ | cfg <;>
      rcases hsec : solrCloud.spec.solrSecurity with _ | sec <;>
        simp [hcfg, hsec]

/-- Without user probe overrides, the generated probes are the defaults built
from `ssDefaultHandlerAndTimeout`. -/
theorem generateSSProbes_no_override (solrCloud : SolrCloud) (tls : Option TLSCerts)
    (hl : ∀ o, solrCloud.spec.customSolrKubeOptions.podOptions = some o → o.livenessProbe = none)
    (hr : ∀ o, solrCloud.spec.customSolrKubeOptions.podOptions = some o → o.readinessProbe = none) :
    (generateSSProbes solrCloud tls).1
        = ⟨20, (ssDefaultHandlerAndTimeout solrCloud tls).2, 1, 3, 10,
            (ssDefaultHandlerAndTimeout solrCloud tls).1⟩
      ∧ (generateSSProbes solrCloud tls).2.1
        = ⟨15, (ssDefaultHandlerAndTimeout solrCloud tls).2, 1, 3, 5,
            (ssDefaultHandlerAndTimeout solrCloud tls).1⟩ := by
  unfold generateSSProbes
  cases hpo : solrCloud.spec.customSolrKubeOptions.podOptions with
  | none => exact ⟨rfl, rfl⟩
  | some o => simp [hl o hpo, hr o hpo]

/-- **C5 (amended)**: absent user probe overrides, the liveness and readiness
probes of the generated solr container use an exec handler instead of the
default HTTP GET exactly when TLS is configured with a server config whose
client-auth requirement is not `None`, or solr security requires the probes to
authenticate; in that case the probe timeout is raised from 1 to 5 seconds;
and when `ProbesRequireAuth` is set, the probe command reads the basic-auth
credentials with `$(cat ...)` from files of the mounted basic-auth secret
volume, not from environment variables. -/
theorem C5_secure_probes (solrCloud : SolrCloud) (solrCloudStatus : SolrCloudStatus)
    (hostNameIPs : List (String × String)) (reconcileConfigInfo : String → String)
    (tls : Option TLSCerts)
    (hl : ∀ o, solrCloud.spec.customSolrKubeOptions.podOptions = some o → o.livenessProbe = none)
    (hr : ∀ o, solrCloud.spec.customSolrKubeOptions.podOptions = some o → o.readinessProbe = none) :
    ((∃ cmd, (GenerateStatefulSet solrCloud solrCloudStatus hostNameIPs reconcileConfigInfo
          tls).livenessProbe.handler = Handler.exec cmd)
        ↔ ((∃ t cfg, tls = some t ∧ t.serverConfig = some cfg
              ∧ cfg.options.clientAuth ≠ ClientAuthType.None)
            ∨ (∃ sec, solrCloud.spec.solrSecurity = some sec ∧ sec.probesRequireAuth = true)))
      ∧ (GenerateStatefulSet solrCloud solrCloudStatus hostNameIPs reconcileConfigInfo
            tls).readinessProbe.handler
        = (GenerateStatefulSet solrCloud solrCloudStatus hostNameIPs reconcileConfigInfo
            tls).livenessProbe.handler
      ∧ (secureProbeNeeded solrCloud tls = true →
          (GenerateStatefulSet solrCloud solrCloudStatus hostNameIPs reconcileConfigInfo
              tls).livenessProbe.timeoutSeconds = 5
            ∧ (GenerateStatefulSet solrCloud solrCloudStatus hostNameIPs reconcileConfigInfo
                tls).readinessProbe.timeoutSeconds = 5)
      ∧ (secureProbeNeeded solrCloud tls = false →
          (GenerateStatefulSet solrCloud solrCloudStatus hostNameIPs reconcileConfigInfo
              tls).livenessProbe.timeoutSeconds = 1
            ∧ (GenerateStatefulSet solrCloud solrCloudStatus hostNameIPs reconcileConfigInfo
                tls).readinessProbe.timeoutSeconds = 1
            ∧ (GenerateStatefulSet solrCloud solrCloudStatus hostNameIPs reconcileConfigInfo
                tls).livenessProbe.handler
              = Handler.httpGet (if tls.isSome then "HTTPS" else "HTTP")
                  ("/solr" ++ DefaultProbePath) solrCloud.spec.solrAddressability.podPort)
      ∧ (∀ sec, solrCloud.spec.solrSecurity = some sec → sec.probesRequireAuth = true →
          ∃ volName mountPath,
            volName = String.mk (solrCloud.basicAuthSecretName.toList.map
                (fun c => if c = '.' then '-' else c))
              ∧ mountPath = "/etc/secrets/" ++ volName
              ∧ (configureSecureProbeCommand solrCloud ("/solr" ++ DefaultProbePath)
                  solrCloud.spec.solrAddressability.podPort).2.1
                = some ⟨volName, { secretName := some solrCloud.basicAuthSecretName }⟩
              ∧ (configureSecureProbeCommand solrCloud ("/solr" ++ DefaultProbePath)
                  solrCloud.spec.solrAddressability.podPort).2.2
                = some ⟨volName, mountPath⟩
              ∧ (GenerateStatefulSet solrCloud solrCloudStatus hostNameIPs reconcileConfigInfo
                  tls).livenessProbe.handler
                = Handler.exec ["sh", "-c",
                    (configureSecureProbeCommand solrCloud ("/solr" ++ DefaultProbePath)
                      solrCloud.spec.solrAddressability.podPort).1]
              ∧ (configureSecureProbeCommand solrCloud ("/solr" ++ DefaultProbePath)
                  solrCloud.spec.solrAddressability.podPort).1
                = collapseWhitespace
                  ("JAVA_TOOL_OPTIONS=\""
                    ++ trimString ("-Dbasicauth=$(cat " ++ (mountPath ++ "/" ++ BasicAuthUsernameKey)
                        ++ "):$(cat " ++ (mountPath ++ "/" ++ BasicAuthPasswordKey) ++ ")"
                        ++ " " ++ (secureProbeTLSJavaToolOpts solrCloud).1)
                    ++ "\" java " ++ (secureProbeTLSJavaToolOpts solrCloud).2 ++ " "
                    ++ " -Dsolr.httpclient.builder.factory=org.apache.solr.client.solrj.impl.PreemptiveBasicAuthClientBuilderFactory "
                    ++ " "
                    ++ "-Dsolr.install.dir=\"/opt/solr\" -Dlog4j.configurationFile=\"/opt/solr/server/resources/log4j2-console.xml\" "
                    ++ "-classpath \"/opt/solr/server/solr-webapp/webapp/WEB-INF/lib/*:/opt/solr/server/lib/ext/*:/opt/solr/server/lib/*\" "
                    ++ "org.apache.solr.util.SolrCLI api -get " ++ solrCloud.urlScheme
                    ++ "://localhost:" ++ toString solrCloud.spec.solrAddressability.podPort
                    ++ ("/solr" ++ DefaultProbePath))) := by
  obtain ⟨hlp, hrp⟩ := generateSSProbes_no_override solrCloud tls hl hr
  have e1 : (GenerateStatefulSet solrCloud solrCloudStatus hostNameIPs reconcileConfigInfo
      tls).livenessProbe = (generateSSProbes solrCloud tls).1 := rfl
  have e2 : (GenerateStatefulSet solrCloud solrCloudStatus hostNameIPs reconcileConfigInfo
      tls).readinessProbe = (generateSSProbes solrCloud tls).2.1 := rfl
  refine ⟨?_, ?_, ?_, ?_, ?_⟩
  · constructor
    · rintro ⟨cmd, hcmd⟩
      rw [e1, hlp] at hcmd
      by_cases hs : secureProbeNeeded solrCloud tls = true
      · exact (secureProbeNeeded_eq_true_iff solrCloud tls).mp hs
      · exfalso
        unfold ssDefaultHandlerAndTimeout at hcmd
        rw [if_neg hs] at hcmd
        simp at hcmd
    · intro hcond
      have hs := (secureProbeNeeded_eq_true_iff solrCloud tls).mpr hcond
      rw [e1, hlp]
      unfold ssDefaultHandlerAndTimeout
      rw [if_pos hs]
      exact ⟨_, rfl⟩
  · rw [e1, e2, hlp, hrp]
  · intro hs
    rw [e1, e2, hlp, hrp]
    unfold ssDefaultHandlerAndTimeout
    rw [if_pos hs]
    exact ⟨rfl, rfl⟩
  · intro hs
    rw [e1, e2, hlp, hrp]
    unfold ssDefaultHandlerAndTimeout
    rw [if_neg (by simp [hs])]
    exact ⟨rfl, rfl, rfl⟩
  · intro sec hsec hreq
    have hs : secureProbeNeeded solrCloud tls = true :=
      (secureProbeNeeded_eq_true_iff solrCloud tls).mpr (Or.inr ⟨sec, hsec, hreq⟩)
    refine ⟨_, _, rfl, rfl, ?_, ?_, ?_, ?_⟩
    · unfold configureSecureProbeCommand
      simp [hsec, hreq]
    · unfold configureSecureProbeCommand
      simp [hsec, hreq]
    · rw [e1, hlp]
      unfold ssDefaultHandlerAndTimeout
      rw [if_pos hs]
    · unfold configureSecureProbeCommand
      simp [hsec, hreq]

/-- A SolrCloud whose pod options override the liveness probe with an explicit
HTTP GET handler. -/
def cexCloudC5 : SolrCloud :=
  { name := "c5"
    namespaceName := "ns"
    metaLabels := LabelMap.empty
    spec :=
      { replicas := some 1
        solrAddressability := { podPort := 8983, commonServicePort := 80, external := none }
        solrSecurity := none
        solrTLS := none
        storageOptions := { persistentStorage := none, ephemeralStorage := none }
        customSolrKubeOptions :=
          { podOptions := some
              { livenessProbe := some { handler := some (Handler.httpGet "HTTP" "/custom" 8983) } } }
        backupRepositories := []
        updateStrategy := ⟨""⟩ }
    externalCommonUrl := fun d => d
    externalNodeUrl := fun n d => n ++ "." ++ d
    externalDnsDomain := fun d => d }

/-- Counterexample to C5 as stated ("for every SolrCloud input"): with TLS
requiring client auth — so the claim's condition holds — but a user liveness
probe override carrying an HTTP GET handler, the generated liveness probe is
not exec-based: per §4.8 the explicit probe override wins over the computed
default. -/
theorem C5_counterexample :
    (⟨some ⟨⟨ClientAuthType.Need⟩⟩⟩ : TLSCerts).serverConfig = some ⟨⟨ClientAuthType.Need⟩⟩
      ∧ ClientAuthType.Need ≠ ClientAuthType.None
      ∧ (GenerateStatefulSet cexCloudC5 ⟨"zk:2181"⟩ [] (fun _ => "")
          (some ⟨some ⟨⟨ClientAuthType.Need⟩⟩⟩)).livenessProbe.handler
        = Handler.httpGet "HTTP" "/custom" 8983
      ∧ (∀ cmd, (GenerateStatefulSet cexCloudC5 ⟨"zk:2181"⟩ [] (fun _ => "")
          (some ⟨some ⟨⟨ClientAuthType.Need⟩⟩⟩)).livenessProbe.handler ≠ Handler.exec cmd) := by
  refine ⟨rfl, by decide, by decide, ?_⟩
  intro cmd h
  rw [show (GenerateStatefulSet cexCloudC5 ⟨"zk:2181"⟩ [] (fun _ => "")
      (some ⟨some ⟨⟨ClientAuthType.Need⟩⟩⟩)).livenessProbe.handler
    = Handler.httpGet "HTTP" "/custom" 8983 from by decide] at h
  exact Handler.noConfusion h

/-- A SolrCloud requiring probe authentication, with no probe overrides. -/
def secCloudC5 : SolrCloud :=
  { name := "c5w"
    namespaceName := "ns"
    metaLabels := LabelMap.empty
    spec :=
      { replicas := some 1
        solrAddressability := { podPort := 8983, commonServicePort := 80, external := none }
        solrSecurity := some ⟨true⟩
        solrTLS := none
        storageOptions := { persistentStorage := none, ephemeralStorage := none }
        customSolrKubeOptions := {}
        backupRepositories := []
        updateStrategy := ⟨""⟩ }
    externalCommonUrl := fun d => d
    externalNodeUrl := fun n d => n ++ "." ++ d
    externalDnsDomain := fun d => d }

/-- Witness for (amended) C5: probes requiring auth, no TLS, no overrides. -/
theorem C5_secure_probes_witness :
    (∀ o, secCloudC5.spec.customSolrKubeOptions.podOptions = some o → o.livenessProbe = none)
      ∧ (∀ o, secCloudC5.spec.customSolrKubeOptions.podOptions = some o → o.readinessProbe = none)
      ∧ (((∃ cmd, (GenerateStatefulSet secCloudC5 ⟨"zk:2181"⟩ [] (fun _ => "")
              none).livenessProbe.handler = Handler.exec cmd)
            ↔ ((∃ t cfg, (none : Option TLSCerts) = some t ∧ t.serverConfig = some cfg
                  ∧ cfg.options.clientAuth ≠ ClientAuthType.None)
                ∨ (∃ sec, secCloudC5.spec.solrSecurity = some sec
                    ∧ sec.probesRequireAuth = true)))
          ∧ (GenerateStatefulSet secCloudC5 ⟨"zk:2181"⟩ [] (fun _ => "")
                none).readinessProbe.handler
            = (GenerateStatefulSet secCloudC5 ⟨"zk:2181"⟩ [] (fun _ => "")
                none).livenessProbe.handler
          ∧ (secureProbeNeeded secCloudC5 none = true →
              (GenerateStatefulSet secCloudC5 ⟨"zk:2181"⟩ [] (fun _ => "")
                  none).livenessProbe.timeoutSeconds = 5
                ∧ (GenerateStatefulSet secCloudC5 ⟨"zk:2181"⟩ [] (fun _ => "")
                    none).readinessProbe.timeoutSeconds = 5)
          ∧ (secureProbeNeeded secCloudC5 none = false →
              (GenerateStatefulSet secCloudC5 ⟨"zk:2181"⟩ [] (fun _ => "")
                  none).livenessProbe.timeoutSeconds = 1
                ∧ (GenerateStatefulSet secCloudC5 ⟨"zk:2181"⟩ [] (fun _ => "")
                    none).readinessProbe.timeoutSeconds = 1
                ∧ (GenerateStatefulSet secCloudC5 ⟨"zk:2181"⟩ [] (fun _ => "")
                    none).livenessProbe.handler
                  = Handler.httpGet (if (none : Option TLSCerts).isSome then "HTTPS" else "HTTP")
                      ("/solr" ++ DefaultProbePath) secCloudC5.spec.solrAddressability.podPort)
          ∧ (∀ sec, secCloudC5.spec.solrSecurity = some sec → sec.probesRequireAuth = true →
              ∃ volName mountPath,
                volName = String.mk (secCloudC5.basicAuthSecretName.toList.map
                    (fun c => if c = '.' then '-' else c))
                  ∧ mountPath = "/etc/secrets/" ++ volName
                  ∧ (configureSecureProbeCommand secCloudC5 ("/solr" ++ DefaultProbePath)
                      secCloudC5.spec.solrAddressability.podPort).2.1
                    = some ⟨volName, { secretName := some secCloudC5.basicAuthSecretName }⟩
                  ∧ (configureSecureProbeCommand secCloudC5 ("/solr" ++ DefaultProbePath)
                      secCloudC5.spec.solrAddressability.podPort).2.2
                    = some ⟨volName, mountPath⟩
                  ∧ (GenerateStatefulSet secCloudC5 ⟨"zk:2181"⟩ [] (fun _ => "")
                      none).livenessProbe.handler
                    = Handler.exec ["sh", "-c",
                        (configureSecureProbeCommand secCloudC5 ("/solr" ++ DefaultProbePath)
                          secCloudC5.spec.solrAddressability.podPort).1]
                  ∧ (configureSecureProbeCommand secCloudC5 ("/solr" ++ DefaultProbePath)
                      secCloudC5.spec.solrAddressability.podPort).1
                    = collapseWhitespace
                      ("JAVA_TOOL_OPTIONS=\""
                        ++ trimString ("-Dbasicauth=$(cat "
                            ++ (mountPath ++ "/" ++ BasicAuthUsernameKey)
                            ++ "):$(cat " ++ (mountPath ++ "/" ++ BasicAuthPasswordKey) ++ ")"
                            ++ " " ++ (secureProbeTLSJavaToolOpts secCloudC5).1)
                        ++ "\" java " ++ (secureProbeTLSJavaToolOpts secCloudC5).2 ++ " "
                        ++ " -Dsolr.httpclient.builder.factory=org.apache.solr.client.solrj.impl.PreemptiveBasicAuthClientBuilderFactory "
                        ++ " "
                        ++ "-Dsolr.install.dir=\"/opt/solr\" -Dlog4j.configurationFile=\"/opt/solr/server/resources/log4j2-console.xml\" "
                        ++ "-classpath \"/opt/solr/server/solr-webapp/webapp/WEB-INF/lib/*:/opt/solr/server/lib/ext/*:/opt/solr/server/lib/*\" "
                        ++ "org.apache.solr.util.SolrCLI api -get " ++ secCloudC5.urlScheme
                        ++ "://localhost:" ++ toString secCloudC5.spec.solrAddressability.podPort
                        ++ ("/solr" ++ DefaultProbePath)))) :=
  ⟨(fun _ h => nomatch h), (fun _ h => nomatch h),
   C5_secure_probes secCloudC5 ⟨"zk:2181"⟩ [] (fun _ => "") none
     (fun _ h => nomatch h) (fun _ h => nomatch h)⟩

/-! ### C3: internal labels under user overrides -/

theorem merge_preserves_ne_none (base add : LabelMap) (k : String) (h : base k ≠ none) :
    MergeLabelsOrAnnotations base add k ≠ none := by
  unfold MergeLabelsOrAnnotations
  cases hadd : add k with
  | some v => simp
  | none => simpa using h

theorem merge_add_some (base add : LabelMap) (k v : String) (h : add k = some v) :
    MergeLabelsOrAnnotations base add k = some v := by
  unfold MergeLabelsOrAnnotations
  rw [h]

theorem merge_add_none (base add : LabelMap) (k : String) (h : add k = none) :
    MergeLabelsOrAnnotations base add k = base k := by
  unfold MergeLabelsOrAnnotations
  rw [h]

theorem set_eq_of_ne (m : LabelMap) (k v q : String) (h : q ≠ k) : (m.set k v) q = m q := by
  unfold LabelMap.set
  rw [if_neg h]

theorem set_eq_self (m : LabelMap) (k v : String) : (m.set k v) k = some v := by
  unfold LabelMap.set
  rw [if_pos rfl]

theorem sharedLabels_tech (n : String) : SharedLabels n "technology" = some SolrTechnologyLabel := rfl

theorem sharedLabels_inst (n : String) : SharedLabels n SolrInstanceLabelKey = some n := rfl

/-- The internal technology and instance label keys are present. -/
def internalLabelsPresent (m : LabelMap) : Prop :=
  m "technology" ≠ none ∧ m SolrInstanceLabelKey ≠ none

/-- The internal labels carry their fixed values. -/
def internalLabelsFixed (m : LabelMap) (instanceName : String) : Prop :=
  m "technology" = some SolrTechnologyLabel ∧ m SolrInstanceLabelKey = some instanceName

/-- A user label map binds neither reserved internal key. -/
def unboundReserved (m : LabelMap) : Prop :=
  m "technology" = none ∧ m SolrInstanceLabelKey = none

theorem sharedLabelsWith_present (n : String) (meta : LabelMap) :
    internalLabelsPresent (SharedLabelsWith n meta) :=
  ⟨merge_preserves_ne_none _ _ _ (by rw [sharedLabels_tech]; simp),
   merge_preserves_ne_none _ _ _ (by rw [sharedLabels_inst]; simp)⟩

theorem sharedLabelsWith_fixed (n : String) (meta : LabelMap) (hmeta : unboundReserved meta) :
    internalLabelsFixed (SharedLabelsWith n meta) n :=
  ⟨by rw [SharedLabelsWith, merge_add_none _ _ _ hmeta.1, sharedLabels_tech],
   by rw [SharedLabelsWith, merge_add_none _ _ _ hmeta.2, sharedLabels_inst]⟩

theorem merge_preserves_present (base add : LabelMap) (h : internalLabelsPresent base) :
    internalLabelsPresent (MergeLabelsOrAnnotations base add) :=
  ⟨merge_preserves_ne_none _ _ _ h.1, merge_preserves_ne_none _ _ _ h.2⟩

theorem merge_preserves_fixed (base add : LabelMap) (n : String)
    (h : internalLabelsFixed base n) (hadd : unboundReserved add) :
    internalLabelsFixed (MergeLabelsOrAnnotations base add) n :=
  ⟨by rw [merge_add_none _ _ _ hadd.1, h.1], by rw [merge_add_none _ _ _ hadd.2, h.2]⟩

theorem set_preserves_present (m : LabelMap) (k v : String)
    (hk1 : "technology" ≠ k) (hk2 : SolrInstanceLabelKey ≠ k)
    (h : internalLabelsPresent m) : internalLabelsPresent (m.set k v) :=
  ⟨by rw [set_eq_of_ne _ _ _ _ hk1]; exact h.1, by rw [set_eq_of_ne _ _ _ _ hk2]; exact h.2⟩

theorem set_preserves_fixed (m : LabelMap) (k v : String) (n : String)
    (hk1 : "technology" ≠ k) (hk2 : SolrInstanceLabelKey ≠ k)
    (h : internalLabelsFixed m n) : internalLabelsFixed (m.set k v) n :=
  ⟨by rw [set_eq_of_ne _ _ _ _ hk1]; exact h.1, by rw [set_eq_of_ne _ _ _ _ hk2]; exact h.2⟩

/-- Merge an optional kind-specific override layer (the common pattern of the
generators). -/
def mergeKindLabels (base : LabelMap) (opt : Option KubeOptions) : LabelMap :=
  match opt with
  | some o => MergeLabelsOrAnnotations base o.labels
  | none => base

theorem GenerateConfigMap_labels (solrCloud : SolrCloud) :
    (GenerateConfigMap solrCloud).labels
      = mergeKindLabels (SharedLabelsWith solrCloud.name solrCloud.metaLabels)
          solrCloud.spec.customSolrKubeOptions.configMapOptions := by
  unfold GenerateConfigMap mergeKindLabels
  cases solrCloud.spec.customSolrKubeOptions.configMapOptions <;> rfl

theorem GenerateCommonService_labels (solrCloud : SolrCloud) :
    (GenerateCommonService solrCloud).labels
      = mergeKindLabels
          ((SharedLabelsWith solrCloud.name solrCloud.metaLabels).set "service-type" "common")
          solrCloud.spec.customSolrKubeOptions.commonServiceOptions := by
  unfold GenerateCommonService mergeKindLabels
  cases solrCloud.spec.customSolrKubeOptions.commonServiceOptions <;> rfl

theorem GenerateHeadlessService_labels (solrCloud : SolrCloud) :
    (GenerateHeadlessService solrCloud).labels
      = mergeKindLabels
          ((SharedLabelsWith solrCloud.name solrCloud.metaLabels).set "service-type" "headless")
          solrCloud.spec.customSolrKubeOptions.headlessServiceOptions := by
  unfold GenerateHeadlessService mergeKindLabels
  cases solrCloud.spec.customSolrKubeOptions.headlessServiceOptions <;> rfl

theorem GenerateNodeService_labels (solrCloud : SolrCloud) (nodeName : String) :
    (GenerateNodeService solrCloud nodeName).labels
      = mergeKindLabels
          ((SharedLabelsWith solrCloud.name solrCloud.metaLabels).set "service-type" "external")
          solrCloud.spec.customSolrKubeOptions.nodeServiceOptions := by
  unfold GenerateNodeService mergeKindLabels
  cases solrCloud.spec.customSolrKubeOptions.nodeServiceOptions <;> rfl

theorem GenerateIngress_labels (solrCloud : SolrCloud) (nodeNames : List String) :
    (GenerateIngress solrCloud nodeNames).labels
      = mergeKindLabels (SharedLabelsWith solrCloud.name solrCloud.metaLabels)
          solrCloud.spec.customSolrKubeOptions.ingressOptions := by
  unfold GenerateIngress mergeKindLabels
  cases solrCloud.spec.customSolrKubeOptions.ingressOptions <;> rfl

theorem mergeKindLabels_present (base : LabelMap) (opt : Option KubeOptions)
    (h : internalLabelsPresent base) : internalLabelsPresent (mergeKindLabels base opt) := by
  cases opt with
  | none => exact h
  | some o => exact merge_preserves_present _ _ h

theorem mergeKindLabels_fixed (base : LabelMap) (opt : Option KubeOptions) (n : String)
    (h : internalLabelsFixed base n) (hopt : ∀ o, opt = some o → unboundReserved o.labels) :
    internalLabelsFixed (mergeKindLabels base opt) n := by
  cases hc : opt with
  | none => exact h
  | some o => exact merge_preserves_fixed _ _ _ h (hopt o hc)

theorem mergeKindLabels_kind_wins (base : LabelMap) (opt : Option KubeOptions)
    (o : KubeOptions) (hc : opt = some o) (k v : String) (hv : o.labels k = some v) :
    mergeKindLabels base opt k = some v := by
  rw [hc]
  exact merge_add_some _ _ _ _ hv

theorem generateSSBaseLabels_present (solrCloud : SolrCloud) :
    internalLabelsPresent (generateSSBaseLabels solrCloud) :=
  ⟨by rw [generateSSBaseLabels, set_eq_self]; simp,
   by
    rw [generateSSBaseLabels, set_eq_of_ne _ _ _ _ (by decide)]
    exact (sharedLabelsWith_present _ _).2⟩

theorem generateSSBaseLabels_fixed (solrCloud : SolrCloud)
    (hmeta : unboundReserved solrCloud.metaLabels) :
    internalLabelsFixed (generateSSBaseLabels solrCloud) solrCloud.name :=
  ⟨by rw [generateSSBaseLabels, set_eq_self],
   by
    rw [generateSSBaseLabels, set_eq_of_ne _ _ _ _ (by decide)]
    exact (sharedLabelsWith_fixed _ _ hmeta).2⟩

/-- **C3 (amended)**: every generated object carries the internal technology
and instance label keys, and user label overrides never remove them; when the
user layers do not bind the reserved keys, the keys carry their fixed internal
values (a user layer that explicitly binds a reserved key overrides its value,
since later layers win on key conflicts); kind-specific label overrides win
over global (metadata) labels; and the persistent-volume-claim template always
carries the three internal storage labels. -/
theorem C3_internal_labels (solrCloud : SolrCloud) (solrCloudStatus : SolrCloudStatus)
    (hostNameIPs : List (String × String)) (reconcileConfigInfo : String → String)
    (tls : Option TLSCerts) (nodeName : String) (nodeNames : List String) :
    internalLabelsPresent (GenerateStatefulSet solrCloud solrCloudStatus hostNameIPs
        reconcileConfigInfo tls).labels
      ∧ internalLabelsPresent (GenerateConfigMap solrCloud).labels
      ∧ internalLabelsPresent (GenerateCommonService solrCloud).labels
      ∧ internalLabelsPresent (GenerateHeadlessService solrCloud).labels
      ∧ internalLabelsPresent (GenerateNodeService solrCloud nodeName).labels
      ∧ internalLabelsPresent (GenerateIngress solrCloud nodeNames).labels
      ∧ (∀ pvc ∈ (GenerateStatefulSet solrCloud solrCloudStatus hostNameIPs
            reconcileConfigInfo tls).volumeClaimTemplates,
          pvc.labels SolrPVCTechnologyLabel ≠ none
            ∧ pvc.labels SolrPVCStorageLabel ≠ none
            ∧ pvc.labels SolrPVCInstanceLabel ≠ none)
      ∧ (unboundReserved solrCloud.metaLabels →
          (∀ o, solrCloud.spec.customSolrKubeOptions.statefulSetOptions = some o →
            unboundReserved o.labels) →
          (∀ o, solrCloud.spec.customSolrKubeOptions.configMapOptions = some o →
            unboundReserved o.labels) →
          (∀ o, solrCloud.spec.customSolrKubeOptions.commonServiceOptions = some o →
            unboundReserved o.labels) →
          (∀ o, solrCloud.spec.customSolrKubeOptions.headlessServiceOptions = some o →
            unboundReserved o.labels) →
          (∀ o, solrCloud.spec.customSolrKubeOptions.nodeServiceOptions = some o →
            unboundReserved o.labels) →
          (∀ o, solrCloud.spec.customSolrKubeOptions.ingressOptions = some o →
            unboundReserved o.labels) →
          internalLabelsFixed (GenerateStatefulSet solrCloud solrCloudStatus hostNameIPs
              reconcileConfigInfo tls).labels solrCloud.name
            ∧ internalLabelsFixed (GenerateConfigMap solrCloud).labels solrCloud.name
            ∧ internalLabelsFixed (GenerateCommonService solrCloud).labels solrCloud.name
            ∧ internalLabelsFixed (GenerateHeadlessService solrCloud).labels solrCloud.name
            ∧ internalLabelsFixed (GenerateNodeService solrCloud nodeName).labels solrCloud.name
            ∧ internalLabelsFixed (GenerateIngress solrCloud nodeNames).labels solrCloud.name)
      ∧ (∀ ps, solrCloud.spec.storageOptions.persistentStorage = some ps →
          ps.pvcTemplate.labels SolrPVCTechnologyLabel = none →
          ps.pvcTemplate.labels SolrPVCStorageLabel = none →
          ps.pvcTemplate.labels SolrPVCInstanceLabel = none →
          ∀ pvc ∈ (GenerateStatefulSet solrCloud solrCloudStatus hostNameIPs
              reconcileConfigInfo tls).volumeClaimTemplates,
            pvc.labels SolrPVCTechnologyLabel = some SolrCloudPVCTechnology
              ∧ pvc.labels SolrPVCStorageLabel = some SolrCloudPVCDataStorage
              ∧ pvc.labels SolrPVCInstanceLabel = some solrCloud.name)
      ∧ (∀ o k v, solrCloud.spec.customSolrKubeOptions.statefulSetOptions = some o →
          o.labels k = some v →
          (GenerateStatefulSet solrCloud solrCloudStatus hostNameIPs
            reconcileConfigInfo tls).labels k = some v)
      ∧ (∀ o k v, solrCloud.spec.customSolrKubeOptions.configMapOptions = some o →
          o.labels k = some v → (GenerateConfigMap solrCloud).labels k = some v)
      ∧ (∀ o k v, solrCloud.spec.customSolrKubeOptions.commonServiceOptions = some o →
          o.labels k = some v → (GenerateCommonService solrCloud).labels k = some v)
      ∧ (∀ o k v, solrCloud.spec.customSolrKubeOptions.headlessServiceOptions = some o →
          o.labels k = some v → (GenerateHeadlessService solrCloud).labels k = some v)
      ∧ (∀ o k v, solrCloud.spec.customSolrKubeOptions.nodeServiceOptions = some o →
          o.labels k = some v → (GenerateNodeService solrCloud nodeName).labels k = some v)
      ∧ (∀ o k v, solrCloud.spec.customSolrKubeOptions.ingressOptions = some o →
          o.labels k = some v → (GenerateIngress solrCloud nodeNames).labels k = some v) := by
  have essL : (GenerateStatefulSet solrCloud solrCloudStatus hostNameIPs
      reconcileConfigInfo tls).labels = generateSSLabels solrCloud := rfl
  have essP : (GenerateStatefulSet solrCloud solrCloudStatus hostNameIPs
      reconcileConfigInfo tls).volumeClaimTemplates = generatePvcs solrCloud := rfl
  have htech_ne : ("technology" : String) ≠ "service-type" := by decide
  have hinst_ne : (SolrInstanceLabelKey : String) ≠ "service-type" := by decide
  refine ⟨?_, ?_, ?_, ?_, ?_, ?_, ?_, ?_, ?_, ?_, ?_, ?_, ?_, ?_, ?_⟩
  · rw [essL]
    unfold generateSSLabels
    cases solrCloud.spec.customSolrKubeOptions.statefulSetOptions with
    | none => exact generateSSBaseLabels_present solrCloud
    | some o => exact merge_preserves_present _ _ (generateSSBaseLabels_present solrCloud)
  · rw [GenerateConfigMap_labels]
    exact mergeKindLabels_present _ _ (sharedLabelsWith_present _ _)
  · rw [GenerateCommonService_labels]
    exact mergeKindLabels_present _ _
      (set_preserves_present _ _ _ htech_ne hinst_ne (sharedLabelsWith_present _ _))
  · rw [GenerateHeadlessService_labels]
    exact mergeKindLabels_present _ _
      (set_preserves_present _ _ _ htech_ne hinst_ne (sharedLabelsWith_present _ _))
  · rw [GenerateNodeService_labels]
    exact mergeKindLabels_present _ _
      (set_preserves_present _ _ _ htech_ne hinst_ne (sharedLabelsWith_present _ _))
  · rw [GenerateIngress_labels]
    exact mergeKindLabels_present _ _ (sharedLabelsWith_present _ _)
  · rw [essP]
    unfold generatePvcs
    cases hps : solrCloud.spec.storageOptions.persistentStorage with
    | none => intro pvc hpvc; cases hpvc
    | some ps =>
      intro pvc hpvc
      simp only [List.mem_singleton] at hpvc
      subst hpvc
      have k1 : LabelMap.ofList
          [(SolrPVCTechnologyLabel, SolrCloudPVCTechnology),
           (SolrPVCStorageLabel, SolrCloudPVCDataStorage),
           (SolrPVCInstanceLabel, solrCloud.name)] SolrPVCTechnologyLabel
          = some SolrCloudPVCTechnology := rfl
      have k2 : LabelMap.ofList
          [(SolrPVCTechnologyLabel, SolrCloudPVCTechnology),
           (SolrPVCStorageLabel, SolrCloudPVCDataStorage),
           (SolrPVCInstanceLabel, solrCloud.name)] SolrPVCStorageLabel
          = some SolrCloudPVCDataStorage := rfl
      have k3 : LabelMap.ofList
          [(SolrPVCTechnologyLabel, SolrCloudPVCTechnology),
           (SolrPVCStorageLabel, SolrCloudPVCDataStorage),
           (SolrPVCInstanceLabel, solrCloud.name)] SolrPVCInstanceLabel
          = some solrCloud.name := rfl
      exact ⟨merge_preserves_ne_none _ _ _ (by rw [k1]; simp),
        merge_preserves_ne_none _ _ _ (by rw [k2]; simp),
        merge_preserves_ne_none _ _ _ (by rw [k3]; simp)⟩
  · intro hmeta hss hcm hco hhe hno hin
    refine ⟨?_, ?_, ?_, ?_, ?_, ?_⟩
    · rw [essL]
      unfold generateSSLabels
      cases hc : solrCloud.spec.customSolrKubeOptions.statefulSetOptions with
      | none => exact generateSSBaseLabels_fixed solrCloud hmeta
      | some o =>
        exact merge_preserves_fixed _ _ _ (generateSSBaseLabels_fixed solrCloud hmeta) (hss o hc)
    · rw [GenerateConfigMap_labels]
      exact mergeKindLabels_fixed _ _ _ (sharedLabelsWith_fixed _ _ hmeta) hcm
    · rw [GenerateCommonService_labels]
      exact mergeKindLabels_fixed _ _ _
        (set_preserves_fixed _ _ _ _ htech_ne hinst_ne (sharedLabelsWith_fixed _ _ hmeta)) hco
    · rw [GenerateHeadlessService_labels]
      exact mergeKindLabels_fixed _ _ _
        (set_preserves_fixed _ _ _ _ htech_ne hinst_ne (sharedLabelsWith_fixed _ _ hmeta)) hhe
    · rw [GenerateNodeService_labels]
      exact mergeKindLabels_fixed _ _ _
        (set_preserves_fixed _ _ _ _ htech_ne hinst_ne (sharedLabelsWith_fixed _ _ hmeta)) hno
    · rw [GenerateIngress_labels]
      exact mergeKindLabels_fixed _ _ _ (sharedLabelsWith_fixed _ _ hmeta) hin
  · intro ps hps h1 h2 h3 pvc hpvc
    rw [essP] at hpvc
    unfold generatePvcs at hpvc
    rw [hps] at hpvc
    simp only [List.mem_singleton] at hpvc
    subst hpvc
    refine ⟨?_, ?_, ?_⟩
    · show MergeLabelsOrAnnotations (LabelMap.ofList
          [(SolrPVCTechnologyLabel, SolrCloudPVCTechnology),
           (SolrPVCStorageLabel, SolrCloudPVCDataStorage),
           (SolrPVCInstanceLabel, solrCloud.name)]) ps.pvcTemplate.labels
          SolrPVCTechnologyLabel = some SolrCloudPVCTechnology
      rw [merge_add_none _ _ _ h1]
      rfl
    · show MergeLabelsOrAnnotations (LabelMap.ofList
          [(SolrPVCTechnologyLabel, SolrCloudPVCTechnology),
           (SolrPVCStorageLabel, SolrCloudPVCDataStorage),
           (SolrPVCInstanceLabel, solrCloud.name)]) ps.pvcTemplate.labels
          SolrPVCStorageLabel = some SolrCloudPVCDataStorage
      rw [merge_add_none _ _ _ h2]
      rfl
    · show MergeLabelsOrAnnotations (LabelMap.ofList
          [(SolrPVCTechnologyLabel, SolrCloudPVCTechnology),
           (SolrPVCStorageLabel, SolrCloudPVCDataStorage),
           (SolrPVCInstanceLabel, solrCloud.name)]) ps.pvcTemplate.labels
          SolrPVCInstanceLabel = some solrCloud.name
      rw [merge_add_none _ _ _ h3]
      rfl
  · intro o k v hc hv
    rw [essL]
    unfold generateSSLabels
    rw [hc]
    exact merge_add_some _ _ _ _ hv
  · intro o k v hc hv
    rw [GenerateConfigMap_labels]
    exact mergeKindLabels_kind_wins _ _ o hc k v hv
  · intro o k v hc hv
    rw [GenerateCommonService_labels]
    exact mergeKindLabels_kind_wins _ _ o hc k v hv
  · intro o k v hc hv
    rw [GenerateHeadlessService_labels]
    exact mergeKindLabels_kind_wins _ _ o hc k v hv
  · intro o k v hc hv
    rw [GenerateNodeService_labels]
    exact mergeKindLabels_kind_wins _ _ o hc k v hv
  · intro o k v hc hv
    rw [GenerateIngress_labels]
    exact mergeKindLabels_kind_wins _ _ o hc k v hv

/-- A SolrCloud whose StatefulSet label override explicitly binds the reserved
`technology` key. -/
def cexCloudC3 : SolrCloud :=
  { name := "c3"
    namespaceName := "ns"
    metaLabels := LabelMap.empty
    spec :=
      { replicas := some 1
        solrAddressability := { podPort := 8983, commonServicePort := 80, external := none }
        solrSecurity := none
        solrTLS := none
        storageOptions := { persistentStorage := none, ephemeralStorage := none }
        customSolrKubeOptions :=
          { statefulSetOptions := some { labels := LabelMap.ofList [("technology", "evil")] } }
        backupRepositories := []
        updateStrategy := ⟨""⟩ }
    externalCommonUrl := fun d => d
    externalNodeUrl := fun n d => n ++ "." ++ d
    externalDnsDomain := fun d => d }

/-- Counterexample to C3 as stated: a user override binding the reserved
`technology` key replaces its value (the later layer wins on key conflicts),
so the StatefulSet does not carry the FIXED technology label and the override
affected a reserved key. -/
theorem C3_counterexample :
    (∃ o, cexCloudC3.spec.customSolrKubeOptions.statefulSetOptions = some o
        ∧ o.labels "technology" = some "evil")
      ∧ (GenerateStatefulSet cexCloudC3 ⟨"zk:2181"⟩ [] (fun _ => "") none).labels "technology"
        = some "evil"
      ∧ (GenerateStatefulSet cexCloudC3 ⟨"zk:2181"⟩ [] (fun _ => "") none).labels "technology"
        ≠ some SolrTechnologyLabel :=
  ⟨⟨_, rfl, rfl⟩, by decide, by decide⟩

/-- A SolrCloud with no label overrides anywhere (for the C3 witness). -/
def plainCloudC3 : SolrCloud :=
  { name := "c3w"
    namespaceName := "ns"
    metaLabels := LabelMap.empty
    spec :=
      { replicas := some 1
        solrAddressability := { podPort := 8983, commonServicePort := 80, external := none }
        solrSecurity := none
        solrTLS := none
        storageOptions :=
          { persistentStorage := some
              { pvcTemplate :=
                  { name := ""
                    labels := LabelMap.empty
                    annotations := LabelMap.empty
                    accessModes := []
                    volumeMode := none } }
            ephemeralStorage := none }
        customSolrKubeOptions := {}
        backupRepositories := []
        updateStrategy := ⟨""⟩ }
    externalCommonUrl := fun d => d
    externalNodeUrl := fun n d => n ++ "." ++ d
    externalDnsDomain := fun d => d }

/-- Witness for (amended) C3 at a concrete override-free cloud. -/
theorem C3_internal_labels_witness :
    internalLabelsPresent (GenerateStatefulSet plainCloudC3 ⟨"zk:2181"⟩ [] (fun _ => "")
        none).labels
      ∧ internalLabelsPresent (GenerateConfigMap plainCloudC3).labels
      ∧ internalLabelsPresent (GenerateCommonService plainCloudC3).labels
      ∧ internalLabelsPresent (GenerateHeadlessService plainCloudC3).labels
      ∧ internalLabelsPresent (GenerateNodeService plainCloudC3 "c3w-solrcloud-0").labels
      ∧ internalLabelsPresent (GenerateIngress plainCloudC3 ["c3w-solrcloud-0"]).labels
      ∧ (∀ pvc ∈ (GenerateStatefulSet plainCloudC3 ⟨"zk:2181"⟩ [] (fun _ => "")
            none).volumeClaimTemplates,
          pvc.labels SolrPVCTechnologyLabel ≠ none
            ∧ pvc.labels SolrPVCStorageLabel ≠ none
            ∧ pvc.labels SolrPVCInstanceLabel ≠ none)
      ∧ (unboundReserved plainCloudC3.metaLabels →
          (∀ o, plainCloudC3.spec.customSolrKubeOptions.statefulSetOptions = some o →
            unboundReserved o.labels) →
          (∀ o, plainCloudC3.spec.customSolrKubeOptions.configMapOptions = some o →
            unboundReserved o.labels) →
          (∀ o, plainCloudC3.spec.customSolrKubeOptions.commonServiceOptions = some o →
            unboundReserved o.labels) →
          (∀ o, plainCloudC3.spec.customSolrKubeOptions.headlessServiceOptions = some o →
            unboundReserved o.labels) →
          (∀ o, plainCloudC3.spec.customSolrKubeOptions.nodeServiceOptions = some o →
            unboundReserved o.labels) →
          (∀ o, plainCloudC3.spec.customSolrKubeOptions.ingressOptions = some o →
            unboundReserved o.labels) →
          internalLabelsFixed (GenerateStatefulSet plainCloudC3 ⟨"zk:2181"⟩ [] (fun _ => "")
              none).labels plainCloudC3.name
            ∧ internalLabelsFixed (GenerateConfigMap plainCloudC3).labels plainCloudC3.name
            ∧ internalLabelsFixed (GenerateCommonService plainCloudC3).labels plainCloudC3.name
            ∧ internalLabelsFixed (GenerateHeadlessService plainCloudC3).labels plainCloudC3.name
            ∧ internalLabelsFixed (GenerateNodeService plainCloudC3 "c3w-solrcloud-0").labels
                plainCloudC3.name
            ∧ internalLabelsFixed (GenerateIngress plainCloudC3 ["c3w-solrcloud-0"]).labels
                plainCloudC3.name)
      ∧ (∀ ps, plainCloudC3.spec.storageOptions.persistentStorage = some ps →
          ps.pvcTemplate.labels SolrPVCTechnologyLabel = none →
          ps.pvcTemplate.labels SolrPVCStorageLabel = none →
          ps.pvcTemplate.labels SolrPVCInstanceLabel = none →
          ∀ pvc ∈ (GenerateStatefulSet plainCloudC3 ⟨"zk:2181"⟩ [] (fun _ => "")
              none).volumeClaimTemplates,
            pvc.labels SolrPVCTechnologyLabel = some SolrCloudPVCTechnology
              ∧ pvc.labels SolrPVCStorageLabel = some SolrCloudPVCDataStorage
              ∧ pvc.labels SolrPVCInstanceLabel = some plainCloudC3.name)
      ∧ (∀ o k v, plainCloudC3.spec.customSolrKubeOptions.statefulSetOptions = some o →
          o.labels k = some v →
          (GenerateStatefulSet plainCloudC3 ⟨"zk:2181"⟩ [] (fun _ => "")
            none).labels k = some v)
      ∧ (∀ o k v, plainCloudC3.spec.customSolrKubeOptions.configMapOptions = some o →
          o.labels k = some v → (GenerateConfigMap plainCloudC3).labels k = some v)
      ∧ (∀ o k v, plainCloudC3.spec.customSolrKubeOptions.commonServiceOptions = some o →
          o.labels k = some v → (GenerateCommonService plainCloudC3).labels k = some v)
      ∧ (∀ o k v, plainCloudC3.spec.customSolrKubeOptions.headlessServiceOptions = some o →
          o.labels k = some v → (GenerateHeadlessService plainCloudC3).labels k = some v)
      ∧ (∀ o k v, plainCloudC3.spec.customSolrKubeOptions.nodeServiceOptions = some o →
          o.labels k = some v →
          (GenerateNodeService plainCloudC3 "c3w-solrcloud-0").labels k = some v)
      ∧ (∀ o k v, plainCloudC3.spec.customSolrKubeOptions.ingressOptions = some o →
          o.labels k = some v →
          (GenerateIngress plainCloudC3 ["c3w-solrcloud-0"]).labels k = some v) :=
  C3_internal_labels plainCloudC3 ⟨"zk:2181"⟩ [] (fun _ => "") none "c3w-solrcloud-0"
    ["c3w-solrcloud-0"]

/-! ### C10: determinism and map-iteration-order independence -/

theorem generateHostAliases_eq_of_perm (hm₁ hm₂ : List (String × String))
    (hperm : hm₁.Perm hm₂) (hnodup : (hm₁.map Prod.fst).Nodup) :
    generateHostAliases hm₁ = generateHostAliases hm₂ := by
  unfold generateHostAliases
  have hlen := hperm.length_eq
  rw [hlen]
  by_cases hz : hm₂.length = 0
  · rw [if_pos hz, if_pos hz]
  · rw [if_neg hz, if_neg hz]
    have hsort : (hm₁.map Prod.fst).mergeSort strLe = (hm₂.map Prod.fst).mergeSort strLe :=
      mergeSort_strLe_eq_of_perm (hperm.map Prod.fst)
    rw [hsort]
    have hf : (fun hn => (⟨(hm₁.lookup hn).getD "", [hn]⟩ : HostAlias))
        = fun hn => (⟨(hm₂.lookup hn).getD "", [hn]⟩ : HostAlias) := by
      funext hn
      rw [lookup_eq_of_perm hperm hnodup hn]
    rw [hf]

theorem generateHostAliases_sorted (hm : List (String × String)) (aliases : List HostAlias)
    (h : generateHostAliases hm = some aliases) :
    List.Pairwise (fun a b : HostAlias => ∀ x ∈ a.hostnames, ∀ y ∈ b.hostnames, x ≤ y)
      aliases := by
  unfold generateHostAliases at h
  by_cases hz : hm.length = 0
  · rw [if_pos hz] at h
    cases h
  · rw [if_neg hz] at h
    injection h with h
    subst h
    refine List.Pairwise.map _ ?_ (sorted_mergeSort_strLe (hm.map Prod.fst))
    intro a b hab x hx y hy
    simp only [List.mem_singleton] at hx hy
    subst hx
    subst hy
    exact hab

/-- **C10**: for fixed inputs the generation is a pure function — and the one
place a Go map is iterated, the host-alias block, is independent of the
iteration order: permuting the host-name→IP association list (with
duplicate-free keys) leaves the whole generated StatefulSet unchanged, the
host-alias list is sorted by host name, and the backup-repository section of
the configuration document is likewise independent of collection order. -/
theorem C10_determinism (solrCloud : SolrCloud) (solrCloudStatus : SolrCloudStatus)
    (reconcileConfigInfo : String → String) (tls : Option TLSCerts)
    (hm₁ hm₂ : List (String × String)) (hperm : hm₁.Perm hm₂)
    (hnodup : (hm₁.map Prod.fst).Nodup) :
    GenerateStatefulSet solrCloud solrCloudStatus hm₁ reconcileConfigInfo tls
        = GenerateStatefulSet solrCloud solrCloudStatus hm₂ reconcileConfigInfo tls
      ∧ (∀ aliases, (GenerateStatefulSet solrCloud solrCloudStatus hm₁ reconcileConfigInfo
            tls).hostAliases = some aliases →
          List.Pairwise (fun a b : HostAlias => ∀ x ∈ a.hostnames, ∀ y ∈ b.hostnames, x ≤ y)
            aliases)
      ∧ (∀ repos₁ repos₂ : List SolrBackupRepository, repos₁.Perm repos₂ →
          GenerateSolrXMLString (GenerateBackupRepositoriesForSolrXml repos₁)
            = GenerateSolrXMLString (GenerateBackupRepositoriesForSolrXml repos₂)) := by
  refine ⟨?_, ?_, ?_⟩
  · unfold GenerateStatefulSet
    rw [generateHostAliases_eq_of_perm hm₁ hm₂ hperm hnodup]
  · intro aliases h
    exact generateHostAliases_sorted hm₁ aliases h
  · intro repos₁ repos₂ hp
    rw [backupReposXml_perm repos₁ repos₂ hp]

def sampleCloudC10 : SolrCloud :=
  { name := "c10"
    namespaceName := "ns"
    metaLabels := LabelMap.empty
    spec :=
      { replicas := some 1
        solrAddressability := { podPort := 8983, commonServicePort := 80, external := none }
        solrSecurity := none
        solrTLS := none
        storageOptions := { persistentStorage := none, ephemeralStorage := none }
        customSolrKubeOptions := {}
        backupRepositories := []
        updateStrategy := ⟨""⟩ }
    externalCommonUrl := fun d => d
    externalNodeUrl := fun n d => n ++ "." ++ d
    externalDnsDomain := fun d => d }

/-- Witness for C10: two iteration orders of a concrete two-host map. -/
theorem C10_determinism_witness :
    ([("b.example.com", "10.0.0.2"), ("a.example.com", "10.0.0.1")].Perm
        [("a.example.com", "10.0.0.1"), ("b.example.com", "10.0.0.2")])
      ∧ (([("b.example.com", "10.0.0.2"), ("a.example.com", "10.0.0.1")].map
          Prod.fst).Nodup)
      ∧ (GenerateStatefulSet sampleCloudC10 ⟨"zk:2181"⟩
            [("b.example.com", "10.0.0.2"), ("a.example.com", "10.0.0.1")] (fun _ => "") none
          = GenerateStatefulSet sampleCloudC10 ⟨"zk:2181"⟩
            [("a.example.com", "10.0.0.1"), ("b.example.com", "10.0.0.2")] (fun _ => "") none
        ∧ (∀ aliases, (GenerateStatefulSet sampleCloudC10 ⟨"zk:2181"⟩
              [("b.example.com", "10.0.0.2"), ("a.example.com", "10.0.0.1")] (fun _ => "")
              none).hostAliases = some aliases →
            List.Pairwise (fun a b : HostAlias => ∀ x ∈ a.hostnames, ∀ y ∈ b.hostnames, x ≤ y)
              aliases)
        ∧ (∀ repos₁ repos₂ : List SolrBackupRepository, repos₁.Perm repos₂ →
            GenerateSolrXMLString (GenerateBackupRepositoriesForSolrXml repos₁)
              = GenerateSolrXMLString (GenerateBackupRepositoriesForSolrXml repos₂))) :=
  ⟨List.Perm.swap _ _ _, by decide,
   C10_determinism sampleCloudC10 ⟨"zk:2181"⟩ (fun _ => "") none
     [("b.example.com", "10.0.0.2"), ("a.example.com", "10.0.0.1")]
     [("a.example.com", "10.0.0.1"), ("b.example.com", "10.0.0.2")]
     (List.Perm.swap _ _ _) (by decide)⟩

end SolrOperator
